import Mathlib

set_option maxRecDepth 100000

/-!
Shallow embedding of the `mlb-parser` crate: the domain ontology and builders
(`src/parser/game.rs`), the live game state (`RunnerPositions`,
`LiveGameState`), the anchored grammar primitives, and the streaming section
state machine (`src/parser.rs`).  Rust `String`s are modelled as `String`
(built from `List Char` buffers); regex matches are modelled by hand-written
prefix matchers that implement each anchored pattern's semantics, returning
the match end measured in characters (Rust uses byte offsets, but every
offset the parser uses lies on a character boundary, so character counts are
an equivalent unit).  Fallible operations return `Option` / `Except`; the
two `unwrap` calls that can panic are modelled as explicit crash outcomes.
-/

namespace Mlb

/-- Player position enumeration, in source (`strum` iteration) order. -/
inductive Position where
  | Pitcher
  | Catcher
  | FirstBase
  | SecondBase
  | ThirdBase
  | Shortstop
  | LeftField
  | CenterField
  | RightField
  | DesignatedHitter
  | PinchHitter
  | PinchRunner
  | TwoWayPlayer
  | Outfield
  | Infield
  | Utility
  | ReliefPitcher
  | StartingPitcher
  deriving DecidableEq, Repr

/-- Surface name of a position (`impl ToString for Position`). -/
def Position.toSurface : Position → String
  | .Pitcher => "PITCHER"
  | .Catcher => "CATCHER"
  | .FirstBase => "FIRST_BASE"
  | .SecondBase => "SECOND_BASE"
  | .ThirdBase => "THIRD_BASE"
  | .Shortstop => "SHORTSTOP"
  | .LeftField => "LEFT_FIELD"
  | .CenterField => "CENTER_FIELD"
  | .RightField => "RIGHT_FIELD"
  | .DesignatedHitter => "DESIGNATED_HITTER"
  | .PinchHitter => "PINCH_HITTER"
  | .PinchRunner => "PINCH_RUNNER"
  | .TwoWayPlayer => "TWO_WAY_PLAYER"
  | .Outfield => "OUTFIELD"
  | .Infield => "INFIELD"
  | .Utility => "UTILITY"
  | .ReliefPitcher => "RELIEF_PITCHER"
  | .StartingPitcher => "STARTING_PITCHER"

/-- All positions in `Position::iter()` order (drives the player regex
alternation `ALL_POSITIONS`). -/
def allPositions : List Position :=
  [.Pitcher, .Catcher, .FirstBase, .SecondBase, .ThirdBase, .Shortstop,
   .LeftField, .CenterField, .RightField, .DesignatedHitter, .PinchHitter,
   .PinchRunner, .TwoWayPlayer, .Outfield, .Infield, .Utility,
   .ReliefPitcher, .StartingPitcher]

/-- A registered player (`struct Player`). -/
structure Player where
  position : Position
  name : String
  deriving DecidableEq, Repr

/-- Top or bottom of an inning (`enum TopBottom`). -/
inductive TopBottom where
  | Top
  | Bottom
  deriving DecidableEq, Repr

/-- Surface name of an inning side. -/
def TopBottom.toSurface : TopBottom → String
  | .Top => "top"
  | .Bottom => "bottom"

/-- An inning (`struct Inning`). -/
structure Inning where
  number : Nat
  top_bottom : TopBottom
  deriving DecidableEq, Repr

/-- Surface form of an inning (`impl ToString for Inning`), used in the
semantic-violation error message. -/
def Inning.toSurface (i : Inning) : String :=
  toString i.number ++ " " ++ i.top_bottom.toSurface

/-- A base (`enum Base`).  The surface token `4` is an alias for `Home`. -/
inductive Base where
  | Home
  | First
  | Second
  | Third
  deriving DecidableEq, Repr

/-- Parse a base from its (trimmed) surface token (`impl FromStr for Base`). -/
def Base.fromSurface : String → Option Base
  | "1" => some .First
  | "2" => some .Second
  | "3" => some .Third
  | "4" => some .Home
  | "home" => some .Home
  | _ => none

/-- Rank of a base when it is the *start* of a movement: `Base::compare`
with `BaseComparison::From` makes `Home` least (`Home → First → Second →
Third`). -/
def Base.fromRank : Base → Nat
  | .Home => 0
  | .First => 1
  | .Second => 2
  | .Third => 3

/-- Rank of a base when it is the *end* of a movement: `Base::compare` with
`BaseComparison::To` makes `Home` greatest (`First → Second → Third →
Home`). -/
def Base.toRank : Base → Nat
  | .First => 1
  | .Second => 2
  | .Third => 3
  | .Home => 4

/-- Play type enumeration, in source order (`enum PlayType`). -/
inductive PlayType where
  | Groundout
  | BuntGroundout
  | Strikeout
  | Lineout
  | BuntLineout
  | Flyout
  | PopOut
  | BuntPopOut
  | Forceout
  | FieldersChoiceOut
  | DoublePlay
  | TriplePlay
  | RunnerDoublePlay
  | RunnerTriplePlay
  | GroundedIntoDoublePlay
  | StrikeoutDoublePlay
  | Pickoff
  | PickoffError
  | CaughtStealing
  | PickoffCaughtStealing
  | WildPitch
  | RunnerOut
  | FieldOut
  | BatterOut
  | Balk
  | PassedBall
  | Error
  | Single
  | Double
  | Triple
  | HomeRun
  | Walk
  | IntentWalk
  | HitByPitch
  | FieldersChoice
  | CatcherInterference
  | StolenBase
  | SacFly
  | SacFlyDoublePlay
  | SacBunt
  | SacBuntDoublePlay
  | FieldError
  | GameAdvisory
  deriving DecidableEq, Repr

/-- Canonical surface string of a play type (`impl ToString for PlayType`). -/
def PlayType.toSurface : PlayType → String
  | .Groundout => "Groundout"
  | .BuntGroundout => "Bunt Groundout"
  | .Strikeout => "Strikeout"
  | .Lineout => "Lineout"
  | .BuntLineout => "Bunt Lineout"
  | .Flyout => "Flyout"
  | .PopOut => "Pop Out"
  | .BuntPopOut => "Bunt Pop Out"
  | .Forceout => "Forceout"
  | .FieldersChoiceOut => "Fielders Choice Out"
  | .DoublePlay => "Double Play"
  | .TriplePlay => "Triple Play"
  | .RunnerDoublePlay => "Runner Double Play"
  | .RunnerTriplePlay => "Runner Triple Play"
  | .GroundedIntoDoublePlay => "Grounded Into Double Play"
  | .StrikeoutDoublePlay => "Strikeout Double Play"
  | .Pickoff => "Pickoff"
  | .PickoffError => "Pickoff Error"
  | .CaughtStealing => "Caught Stealing"
  | .PickoffCaughtStealing => "Pickoff Caught Stealing"
  | .WildPitch => "Wild Pitch"
  | .RunnerOut => "Runner Out"
  | .FieldOut => "Field Out"
  | .BatterOut => "Batter Out"
  | .Balk => "Balk"
  | .PassedBall => "Passed Ball"
  | .Error => "Error"
  | .Single => "Single"
  | .Double => "Double"
  | .Triple => "Triple"
  | .HomeRun => "Home Run"
  | .Walk => "Walk"
  | .IntentWalk => "Intent Walk"
  | .HitByPitch => "Hit By Pitch"
  | .FieldersChoice => "Fielders Choice"
  | .CatcherInterference => "Catcher Interference"
  | .StolenBase => "Stolen Base"
  | .SacFly => "Sac Fly"
  | .SacFlyDoublePlay => "Sac Fly Double Play"
  | .SacBunt => "Sac Bunt"
  | .SacBuntDoublePlay => "Sac Bunt Double Play"
  | .FieldError => "Field Error"
  | .GameAdvisory => "Game Advisory"

/-- All play types in `PlayType::iter()` order. -/
def allPlayTypes : List PlayType :=
  [.Groundout, .BuntGroundout, .Strikeout, .Lineout, .BuntLineout, .Flyout,
   .PopOut, .BuntPopOut, .Forceout, .FieldersChoiceOut, .DoublePlay,
   .TriplePlay, .RunnerDoublePlay, .RunnerTriplePlay,
   .GroundedIntoDoublePlay, .StrikeoutDoublePlay, .Pickoff, .PickoffError,
   .CaughtStealing, .PickoffCaughtStealing, .WildPitch, .RunnerOut,
   .FieldOut, .BatterOut, .Balk, .PassedBall, .Error, .Single, .Double,
   .Triple, .HomeRun, .Walk, .IntentWalk, .HitByPitch, .FieldersChoice,
   .CatcherInterference, .StolenBase, .SacFly, .SacFlyDoublePlay, .SacBunt,
   .SacBuntDoublePlay, .FieldError, .GameAdvisory]

/-- `PlayType::requires_base`. -/
def PlayType.requires_base : PlayType → Bool
  | .Pickoff | .PickoffError | .CaughtStealing | .PickoffCaughtStealing
  | .StolenBase => true
  | _ => false

/-- `PlayType::requires_batter`. -/
def PlayType.requires_batter : PlayType → Bool
  | .Groundout | .BuntGroundout | .Strikeout | .Lineout | .BuntLineout
  | .Flyout | .PopOut | .BuntPopOut | .Forceout | .FieldersChoiceOut
  | .DoublePlay | .TriplePlay | .RunnerDoublePlay | .RunnerTriplePlay
  | .GroundedIntoDoublePlay | .StrikeoutDoublePlay | .BatterOut | .Single
  | .Double | .Triple | .HomeRun | .Walk | .IntentWalk | .HitByPitch
  | .FieldersChoice | .CatcherInterference | .SacFly | .SacFlyDoublePlay
  | .SacBunt | .SacBuntDoublePlay | .FieldError => true
  | _ => false

/-- `PlayType::requires_pitcher`. -/
def PlayType.requires_pitcher : PlayType → Bool
  | .Groundout | .BuntGroundout | .Strikeout | .Lineout | .BuntLineout
  | .Flyout | .PopOut | .BuntPopOut | .Forceout | .FieldersChoiceOut
  | .DoublePlay | .TriplePlay | .RunnerDoublePlay | .RunnerTriplePlay
  | .GroundedIntoDoublePlay | .StrikeoutDoublePlay | .WildPitch | .Balk
  | .PassedBall | .Error | .Single | .Double | .Triple | .HomeRun | .Walk
  | .IntentWalk | .HitByPitch | .FieldersChoice | .CatcherInterference
  | .SacFly | .SacFlyDoublePlay | .SacBunt | .SacBuntDoublePlay
  | .FieldError => true
  | _ => false

/-- `PlayType::requires_catcher`. -/
def PlayType.requires_catcher : PlayType → Bool
  | .BatterOut | .PassedBall | .Error => true
  | _ => false

/-- `PlayType::requires_fielders`. -/
def PlayType.requires_fielders : PlayType → Bool
  | .Groundout | .BuntGroundout | .Lineout | .BuntLineout | .Flyout
  | .PopOut | .BuntPopOut | .Forceout | .FieldersChoiceOut | .DoublePlay
  | .TriplePlay | .RunnerDoublePlay | .RunnerTriplePlay
  | .GroundedIntoDoublePlay | .StrikeoutDoublePlay | .Pickoff
  | .PickoffError | .CaughtStealing | .PickoffCaughtStealing | .RunnerOut
  | .FieldOut | .FieldersChoice | .CatcherInterference | .SacFly
  | .SacFlyDoublePlay | .SacBunt | .SacBuntDoublePlay | .FieldError => true
  | _ => false

/-- `PlayType::requires_runner`. -/
def PlayType.requires_runner : PlayType → Bool
  | .Pickoff | .PickoffError | .CaughtStealing | .PickoffCaughtStealing
  | .WildPitch | .RunnerOut | .FieldOut | .StolenBase | .SacBunt
  | .SacBuntDoublePlay => true
  | _ => false

/-- `PlayType::requires_scoring_runner`. -/
def PlayType.requires_scoring_runner : PlayType → Bool
  | .FieldersChoiceOut | .SacFly | .SacFlyDoublePlay => true
  | _ => false

/-- A runner movement (`struct Movement`).  `from` and `to` are Lean
keywords, hence the primed field names. -/
structure Movement where
  runner : String
  from' : Base
  to' : Base
  out : Bool
  deriving DecidableEq, Repr

/-- Tagged play content, one variant per play type with exactly its fields
(`enum PlayContent`). -/
inductive PlayContent where
  | Groundout (batter pitcher : String) (fielders : List String)
  | BuntGroundout (batter pitcher : String) (fielders : List String)
  | Strikeout (batter pitcher : String)
  | Lineout (batter pitcher : String) (fielders : List String)
  | BuntLineout (batter pitcher : String) (fielders : List String)
  | Flyout (batter pitcher : String) (fielders : List String)
  | PopOut (batter pitcher : String) (fielders : List String)
  | BuntPopOut (batter pitcher : String) (fielders : List String)
  | Forceout (batter pitcher : String) (fielders : List String)
  | FieldersChoiceOut (batter pitcher : String) (fielders : List String)
      (scoring_runner : String)
  | DoublePlay (batter pitcher : String) (fielders : List String)
  | TriplePlay (batter pitcher : String) (fielders : List String)
  | RunnerDoublePlay (batter pitcher : String) (fielders : List String)
  | RunnerTriplePlay (batter pitcher : String) (fielders : List String)
  | GroundedIntoDoublePlay (batter pitcher : String)
      (fielders : List String)
  | StrikeoutDoublePlay (batter pitcher : String) (fielders : List String)
  | Pickoff (base : Base) (fielders : List String) (runner : String)
  | PickoffError (base : Base) (fielders : List String) (runner : String)
  | CaughtStealing (base : Base) (fielders : List String) (runner : String)
  | PickoffCaughtStealing (base : Base) (fielders : List String)
      (runner : String)
  | WildPitch (pitcher runner : String)
  | RunnerOut (fielders : List String) (runner : String)
  | FieldOut (fielders : List String) (runner : String)
  | BatterOut (batter catcher : String)
  | Balk (pitcher : String)
  | PassedBall (pitcher catcher : String)
  | Error (pitcher catcher : String)
  | Single (batter pitcher : String)
  | Double (batter pitcher : String)
  | Triple (batter pitcher : String)
  | HomeRun (batter pitcher : String)
  | Walk (batter pitcher : String)
  | IntentWalk (batter pitcher : String)
  | HitByPitch (batter pitcher : String)
  | FieldersChoice (batter pitcher : String) (fielders : List String)
  | CatcherInterference (batter pitcher : String) (fielders : List String)
  | StolenBase (base : Base) (scoring_runner : String)
  | SacFly (batter pitcher : String) (fielders : List String)
      (scoring_runner : String)
  | SacFlyDoublePlay (batter pitcher : String) (fielders : List String)
      (scoring_runner : String)
  | SacBunt (batter pitcher : String) (fielders : List String)
      (runner : String)
  | SacBuntDoublePlay (batter pitcher : String) (fielders : List String)
      (runner : String)
  | FieldError (batter pitcher : String) (fielders : List String)
  | GameAdvisory
  deriving DecidableEq, Repr

/-- A finished play (`struct Play`). -/
structure Play where
  inning : Inning
  play_content : PlayContent
  movements : List Movement
  deriving DecidableEq, Repr

/-- Incremental movement constructor (`struct MovementBuilder`). -/
structure MovementBuilder where
  runner : Option String
  from' : Option Base
  to' : Option Base
  out : Bool
  deriving DecidableEq, Repr

/-- `MovementBuilder::new`. -/
def MovementBuilder.new : MovementBuilder :=
  { runner := none, from' := none, to' := none, out := false }

/-- `MovementBuilder::build`: promotes the accumulated slots into a
`Movement`; fails if runner / from / to is unset. -/
def MovementBuilder.build (b : MovementBuilder) : Option Movement := do
  let runner ← b.runner
  let f ← b.from'
  let t ← b.to'
  pure { runner := runner, from' := f, to' := t, out := b.out }

/-- Incremental play constructor (`struct PlayBuilder`). -/
structure PlayBuilder where
  inning : Option Inning
  play_type : Option PlayType
  base : Option Base
  batter : Option String
  pitcher : Option String
  catcher : Option String
  fielders : List String
  runner : Option String
  scoring_runner : Option String
  movement_builder : MovementBuilder
  movements : List Movement
  deriving DecidableEq, Repr

/-- `PlayBuilder::new`. -/
def PlayBuilder.new : PlayBuilder :=
  { inning := none, play_type := none, base := none, batter := none,
    pitcher := none, catcher := none, fielders := [], runner := none,
    scoring_runner := none, movement_builder := MovementBuilder.new,
    movements := [] }

/-- `PlayBuilder::build_movement`: pushes the built movement and resets the
movement builder; on a build failure the error is swallowed by every caller
(`let _ = ...`), leaving the play builder unchanged. -/
def PlayBuilder.build_movement (b : PlayBuilder) : PlayBuilder :=
  match b.movement_builder.build with
  | some m =>
    { b with movements := b.movements ++ [m],
             movement_builder := MovementBuilder.new }
  | none => b

/-- `PlayBuilder::build`: selects the `PlayContent` variant from the set
play type and populates it from the slots.  Note the `SacBunt` /
`SacBuntDoublePlay` arms read `self.scoring_runner` (not `self.runner`) for
the `runner` field, exactly as the source does. -/
def PlayBuilder.build (b : PlayBuilder) : Option Play := do
  let play_content ←
    (match b.play_type with
     | some PlayType.Groundout => do
       pure (PlayContent.Groundout (← b.batter) (← b.pitcher) b.fielders)
     | some PlayType.BuntGroundout => do
       pure (PlayContent.BuntGroundout (← b.batter) (← b.pitcher)
         b.fielders)
     | some PlayType.Strikeout => do
       pure (PlayContent.Strikeout (← b.batter) (← b.pitcher))
     | some PlayType.Lineout => do
       pure (PlayContent.Lineout (← b.batter) (← b.pitcher) b.fielders)
     | some PlayType.BuntLineout => do
       pure (PlayContent.BuntLineout (← b.batter) (← b.pitcher) b.fielders)
     | some PlayType.Flyout => do
       pure (PlayContent.Flyout (← b.batter) (← b.pitcher) b.fielders)
     | some PlayType.PopOut => do
       pure (PlayContent.PopOut (← b.batter) (← b.pitcher) b.fielders)
     | some PlayType.BuntPopOut => do
       pure (PlayContent.BuntPopOut (← b.batter) (← b.pitcher) b.fielders)
     | some PlayType.Forceout => do
       pure (PlayContent.Forceout (← b.batter) (← b.pitcher) b.fielders)
     | some PlayType.FieldersChoiceOut => do
       pure (PlayContent.FieldersChoiceOut (← b.batter) (← b.pitcher)
         b.fielders (← b.scoring_runner))
     | some PlayType.DoublePlay => do
       pure (PlayContent.DoublePlay (← b.batter) (← b.pitcher) b.fielders)
     | some PlayType.TriplePlay => do
       pure (PlayContent.TriplePlay (← b.batter) (← b.pitcher) b.fielders)
     | some PlayType.RunnerDoublePlay => do
       pure (PlayContent.RunnerDoublePlay (← b.batter) (← b.pitcher)
         b.fielders)
     | some PlayType.RunnerTriplePlay => do
       pure (PlayContent.RunnerTriplePlay (← b.batter) (← b.pitcher)
         b.fielders)
     | some PlayType.GroundedIntoDoublePlay => do
       pure (PlayContent.GroundedIntoDoublePlay (← b.batter) (← b.pitcher)
         b.fielders)
     | some PlayType.StrikeoutDoublePlay => do
       pure (PlayContent.StrikeoutDoublePlay (← b.batter) (← b.pitcher)
         b.fielders)
     | some PlayType.Pickoff => do
       pure (PlayContent.Pickoff (← b.base) b.fielders (← b.runner))
     | some PlayType.PickoffError => do
       pure (PlayContent.PickoffError (← b.base) b.fielders (← b.runner))
     | some PlayType.CaughtStealing => do
       pure (PlayContent.CaughtStealing (← b.base) b.fielders (← b.runner))
     | some PlayType.PickoffCaughtStealing => do
       pure (PlayContent.PickoffCaughtStealing (← b.base) b.fielders
         (← b.runner))
     | some PlayType.WildPitch => do
       pure (PlayContent.WildPitch (← b.pitcher) (← b.runner))
     | some PlayType.RunnerOut => do
       pure (PlayContent.RunnerOut b.fielders (← b.runner))
     | some PlayType.FieldOut => do
       pure (PlayContent.FieldOut b.fielders (← b.runner))
     | some PlayType.BatterOut => do
       pure (PlayContent.BatterOut (← b.batter) (← b.catcher))
     | some PlayType.Balk => do
       pure (PlayContent.Balk (← b.pitcher))
     | some PlayType.PassedBall => do
       pure (PlayContent.PassedBall (← b.pitcher) (← b.catcher))
     | some PlayType.Error => do
       pure (PlayContent.Error (← b.pitcher) (← b.catcher))
     | some PlayType.Single => do
       pure (PlayContent.Single (← b.batter) (← b.pitcher))
     | some PlayType.Double => do
       pure (PlayContent.Double (← b.batter) (← b.pitcher))
     | some PlayType.Triple => do
       pure (PlayContent.Triple (← b.batter) (← b.pitcher))
     | some PlayType.HomeRun => do
       pure (PlayContent.HomeRun (← b.batter) (← b.pitcher))
     | some PlayType.Walk => do
       pure (PlayContent.Walk (← b.batter) (← b.pitcher))
     | some PlayType.IntentWalk => do
       pure (PlayContent.IntentWalk (← b.batter) (← b.pitcher))
     | some PlayType.HitByPitch => do
       pure (PlayContent.HitByPitch (← b.batter) (← b.pitcher))
     | some PlayType.FieldersChoice => do
       pure (PlayContent.FieldersChoice (← b.batter) (← b.pitcher)
         b.fielders)
     | some PlayType.CatcherInterference => do
       pure (PlayContent.CatcherInterference (← b.batter) (← b.pitcher)
         b.fielders)
     | some PlayType.StolenBase => do
       pure (PlayContent.StolenBase (← b.base) (← b.scoring_runner))
     | some PlayType.SacFly => do
       pure (PlayContent.SacFly (← b.batter) (← b.pitcher) b.fielders
         (← b.scoring_runner))
     | some PlayType.SacFlyDoublePlay => do
       pure (PlayContent.SacFlyDoublePlay (← b.batter) (← b.pitcher)
         b.fielders (← b.scoring_runner))
     | some PlayType.SacBunt => do
       pure (PlayContent.SacBunt (← b.batter) (← b.pitcher) b.fielders
         (← b.scoring_runner))
     | some PlayType.SacBuntDoublePlay => do
       pure (PlayContent.SacBuntDoublePlay (← b.batter) (← b.pitcher)
         b.fielders (← b.scoring_runner))
     | some PlayType.FieldError => do
       pure (PlayContent.FieldError (← b.batter) (← b.pitcher) b.fielders)
     | some PlayType.GameAdvisory => pure PlayContent.GameAdvisory
     | none => none)
  let inning ← b.inning
  pure { inning := inning, play_content := play_content,
         movements := b.movements }

/-- Game weather triple (`struct Weather`). -/
structure Weather where
  condition : String
  temperature : Nat
  wind_speed : Nat
  deriving DecidableEq, Repr

/-- Game context (`struct Context`). -/
structure Context where
  game_pk : Nat
  date : String
  venue : String
  weather : Weather
  deriving DecidableEq, Repr

/-- A team (`struct Team`). -/
structure Team where
  team_id : Nat
  players : List Player
  deriving DecidableEq, Repr

/-- The finished game (`struct Game`). -/
structure Game where
  context : Context
  home_team : Team
  away_team : Team
  plays : List Play
  deriving DecidableEq, Repr

/-- Incremental game constructor (`struct GameBuilder`). -/
structure GameBuilder where
  game_pk : Option Nat
  date : Option String
  venue : Option String
  weather_condition : Option String
  weather_temperature : Option Nat
  weather_wind_speed : Option Nat
  home_team_id : Option Nat
  home_team_players : List Player
  away_team_id : Option Nat
  away_team_players : List Player
  play_builder : PlayBuilder
  plays : List Play
  deriving DecidableEq, Repr

/-- `GameBuilder::new`. -/
def GameBuilder.new : GameBuilder :=
  { game_pk := none, date := none, venue := none, weather_condition := none,
    weather_temperature := none, weather_wind_speed := none,
    home_team_id := none, home_team_players := [], away_team_id := none,
    away_team_players := [], play_builder := PlayBuilder.new, plays := [] }

/-- `GameBuilder::build_play`: pushes the built play and resets the play
builder; on failure (`?` on `None`) neither happens and the caller ignores
the returned `None`. -/
def GameBuilder.build_play (gb : GameBuilder) : GameBuilder :=
  match gb.play_builder.build with
  | some p =>
    { gb with plays := gb.plays ++ [p], play_builder := PlayBuilder.new }
  | none => gb

/-- `GameBuilder::build`: requires every context field and both team ids. -/
def GameBuilder.build (gb : GameBuilder) : Option Game := do
  let game_pk ← gb.game_pk
  let date ← gb.date
  let venue ← gb.venue
  let weather_condition ← gb.weather_condition
  let weather_temperature ← gb.weather_temperature
  let weather_wind_speed ← gb.weather_wind_speed
  let home_team_id ← gb.home_team_id
  let away_team_id ← gb.away_team_id
  pure
    { context :=
        { game_pk := game_pk, date := date, venue := venue,
          weather :=
            { condition := weather_condition,
              temperature := weather_temperature,
              wind_speed := weather_wind_speed } },
      home_team := { team_id := home_team_id,
                     players := gb.home_team_players },
      away_team := { team_id := away_team_id,
                     players := gb.away_team_players },
      plays := gb.plays }

end Mlb

namespace Mlb

/-- Base occupancy: the four base slots, each empty or bound to a runner
display name (`struct RunnerPositions`). -/
structure RunnerPositions where
  home : Option String
  first : Option String
  second : Option String
  third : Option String
  deriving DecidableEq, Repr

/-- `RunnerPositions::empty`. -/
def RunnerPositions.empty : RunnerPositions :=
  { home := none, first := none, second := none, third := none }

/-- Slot lookup by base, for stating occupancy properties. -/
def RunnerPositions.get (rp : RunnerPositions) : Base → Option String
  | .Home => rp.home
  | .First => rp.first
  | .Second => rp.second
  | .Third => rp.third

/-- Runner names of a movement list with duplicates removed, first
occurrence first.  The source collects them into a `HashSet` and iterates it
in unspecified order; only the underlying set matters to the processed
result, and we fix the deterministic first-occurrence order. -/
def dedupRunnersAux : List String → List String → List String
  | [], _ => []
  | x :: xs, seen =>
    if x ∈ seen then dedupRunnersAux xs seen
    else x :: dedupRunnersAux xs (x :: seen)

/-- Minimum of a nonempty list of bases under the `BaseComparison::From`
order (`Home` least); `Base.Home` is a dummy for the unreachable empty
case (`unwrap` in the source). -/
def minFromBase : List Base → Base
  | [] => Base.Home
  | b :: rest =>
    rest.foldl (fun acc x => if x.fromRank < acc.fromRank then x else acc) b

/-- Maximum of a nonempty list of bases under the `BaseComparison::To`
order (`Home` greatest). -/
def maxToBase : List Base → Base
  | [] => Base.Home
  | b :: rest =>
    rest.foldl (fun acc x => if acc.toRank < x.toRank then x else acc) b

/-- `RunnerPositions::simplify_movements`: group a play's movements by
runner and collapse each group to one movement, taking the earliest start,
the latest end, and the disjunction of the out flags. -/
def simplify_movements (movements : List Movement) : List Movement :=
  (dedupRunnersAux (movements.map (·.runner)) []).map fun runner =>
    let froms := (movements.filter (fun m => m.runner = runner)).map (·.from')
    let tos := (movements.filter (fun m => m.runner = runner)).map (·.to')
    { runner := runner, from' := minFromBase froms, to' := maxToBase tos,
      out := movements.any (fun m => m.runner = runner && m.out) }

/-- Forbidden-direction check of `process_movements` (parser.rs:211-216):
`Third → Second`, `Third → First`, `Second → First` are errors. -/
def directionViolation (m : Movement) : Option String :=
  match m.from', m.to' with
  | Base.Third, Base.Second =>
    some ("Cannot move runner from third to second")
  | Base.Third, Base.First => some ("Cannot move runner from third to first")
  | Base.Second, Base.First =>
    some ("Cannot move runner from second to first")
  | _, _ => none

/-- Occupancy check of `process_movements` (parser.rs:220-240), performed
against the positions as they were at the start of the call: a movement
from First/Second/Third requires the named runner to be the slot's occupant
or a pinch runner, and the slot to be non-empty; `from = Home` imposes
nothing. -/
def occupancyViolation (rp : RunnerPositions) (pinch_runners : List String)
    (m : Movement) : Option String :=
  match m.from' with
  | Base.First =>
    match rp.first with
    | some runner =>
      if m.runner ≠ runner ∧ ¬ m.runner ∈ pinch_runners then
        some ("Runner " ++ m.runner ++
          " is not on first base and is not a pinch runner")
      else none
    | none => some ("No runner is on first base")
  | Base.Second =>
    match rp.second with
    | some runner =>
      if m.runner ≠ runner ∧ ¬ m.runner ∈ pinch_runners then
        some ("Runner " ++ m.runner ++
          " is not on second base and is not a pinch runner")
      else none
    | none => some ("No runner is on second base")
  | Base.Third =>
    match rp.third with
    | some runner =>
      if m.runner ≠ runner ∧ ¬ m.runner ∈ pinch_runners then
        some ("Runner " ++ m.runner ++
          " is not on third base and is not a pinch runner")
      else none
    | none => some ("No runner is on third base")
  | Base.Home => none

/-- Occupancy update of `process_movements` (parser.rs:243-250): a
non-out movement binds its end slot to its runner; an out-flagged movement
changes nothing. -/
def applyMovement (acc : RunnerPositions) (m : Movement) : RunnerPositions :=
  if m.out then acc
  else
    match m.to' with
    | Base.First => { acc with first := some m.runner }
    | Base.Second => { acc with second := some m.runner }
    | Base.Third => { acc with third := some m.runner }
    | Base.Home => { acc with home := some m.runner }

/-- Loop body of `process_movements`: validate each simplified movement
against the original positions `rp`, threading the updated copy `acc`. -/
def processMovementsGo (rp : RunnerPositions) (pinch_runners : List String) :
    List Movement → RunnerPositions → Except String RunnerPositions
  | [], acc => Except.ok acc
  | m :: rest, acc =>
    match directionViolation m with
    | some e => Except.error e
    | none =>
      match occupancyViolation rp pinch_runners m with
      | some e => Except.error e
      | none => processMovementsGo rp pinch_runners rest (applyMovement acc m)

/-- `RunnerPositions::process_movements` (parser.rs:203-258): simplify,
validate, and on success return the updated copy of the positions (which
the source then assigns back to `self`). -/
def RunnerPositions.process_movements (rp : RunnerPositions)
    (movements : List Movement) (pinch_runners : List String) :
    Except String RunnerPositions :=
  processMovementsGo rp pinch_runners (simplify_movements movements) rp

/-- Live game state (`struct LiveGameState`). -/
structure LiveGameState where
  runner_positions : RunnerPositions
  inning : Inning
  home_team_score : Nat
  away_team_score : Nat
  deriving DecidableEq, Repr

/-- `LiveGameState::new`. -/
def LiveGameState.new : LiveGameState :=
  { runner_positions := RunnerPositions.empty,
    inning := { number := 1, top_bottom := TopBottom.Top },
    home_team_score := 0, away_team_score := 0 }

end Mlb

namespace Mlb

/-! Grammar primitives.  Each anchored regex of the source is implemented
as a prefix matcher on the character buffer that returns the match end (in
characters) together with the captured payload, reproducing the
greedy/lazy/backtracking behaviour of the patterns involved. -/

/-- Numeric range test used by the character classes. -/
def between (lo hi n : Nat) : Bool := decide (lo ≤ n ∧ n ≤ hi)

/-- Latin letter ranges `a-z A-Z À-Ö Ø-ö ø-ÿ` used by the name / venue
classes. -/
def isLatinLetter (c : Char) : Bool :=
  between 97 122 c.toNat || between 65 90 c.toNat ||
  between 192 214 c.toNat || between 216 246 c.toNat ||
  between 248 255 c.toNat

/-- Character class of `[VENUE]` / `[WEATHER]` condition:
`[a-zA-ZÀ-ÖØ-öø-ÿ ]`. -/
def isVenueChar (c : Char) : Bool := isLatinLetter c || c == ' '

/-- Character class of `PLAYER_NAME`: latin letters, period, apostrophe
(code 39), hyphen, space. -/
def isPlayerNameChar (c : Char) : Bool :=
  isLatinLetter c || c == '.' || c.toNat == 39 || c == '-' || c == ' '

/-- Word characters for the `\b` assertion of `PLAYER_NAME_BASE_REGEX`
(alphanumeric or underscore, over the alphabet that can occur here). -/
def isWordChar (c : Char) : Bool := isLatinLetter c || c.isDigit || c == '_'

/-- Whitespace trimmed by `trim_start` / `trim` after each consumption.
Rust trims all Unicode whitespace; over this grammar's alphabet the four
ASCII kinds are the ones that exist. -/
def isWhiteChar (c : Char) : Bool :=
  c == ' ' || c == '\n' || c == '\t' || c == '\r'

/-- Length of the longest prefix whose characters satisfy `p` (a greedy
character-class run). -/
def countWhile (p : Char → Bool) : List Char → Nat
  | [] => 0
  | c :: rest => if p c then countWhile p rest + 1 else 0

/-- Remainder after a literal prefix, or `none`. -/
def litRest (lit l : List Char) : Option (List Char) :=
  if lit.isPrefixOf l then some (l.drop lit.length) else none

/-- First character test. -/
def headIs (l : List Char) (c : Char) : Bool :=
  match l with
  | x :: _ => x == c
  | [] => false

/-- Decimal value of a digit run. -/
def digitsToNat (l : List Char) : Nat :=
  l.foldl (fun acc c => 10 * acc + (c.toNat - 48)) 0

/-- Both-ends whitespace trim (Rust `str::trim`). -/
def trimChars (l : List Char) : List Char :=
  ((l.dropWhile isWhiteChar).reverse.dropWhile isWhiteChar).reverse

/-- Trimmed string of a character run, as stored by the builders. -/
def trimmedString (l : List Char) : String := (trimChars l).asString

def gameTag : List Char := "[GAME] ".toList
def dateTag : List Char := "[DATE] ".toList
def venueTag : List Char := "[VENUE] ".toList
def weatherTag : List Char := "[WEATHER] ".toList
def teamTag : List Char := "[TEAM] ".toList
def inningTag : List Char := "[INNING] ".toList
def playTag : List Char := "[PLAY] ".toList
def baseTag : List Char := "[BASE] ".toList
def batterTag : List Char := "[BATTER] ".toList
def pitcherTag : List Char := "[PITCHER] ".toList
def catcherTag : List Char := "[CATCHER] ".toList
def runnerTag : List Char := "[RUNNER] ".toList
def scoringRunnerTag : List Char := "[SCORING_RUNNER] ".toList
def gameStartLit : List Char := "[GAME_START]".toList
def fieldersTagLit : List Char := "[FIELDERS]".toList
def movementsTagLit : List Char := "[MOVEMENTS]".toList
def arrowLit : List Char := "->".toList
def outLit : List Char := "[out]".toList
def playEndLit : List Char := ";".toList
def gameEndLit : List Char := "[GAME_END]".toList
def commaSpaceLit : List Char := ", ".toList
def homeLit : List Char := "home".toList

/-- `CONTEXT_SECTION_GAME_REGEX` = `^\[GAME\] (\d{1,6})`: literal tag,
then a greedy run of one to six digits.  Returns (match end, game_pk). -/
def matchGame (l : List Char) : Option (Nat × Nat) :=
  match litRest gameTag l with
  | none => none
  | some rest =>
    let k := min (countWhile Char.isDigit rest) 6
    if k = 0 then none
    else some (gameTag.length + k, digitsToNat (rest.take k))

/-- `CONTEXT_SECTION_DATE_REGEX` = `^\[DATE\] (\d{4}-\d{2}-\d{2})`. -/
def matchDate (l : List Char) : Option (Nat × String) :=
  match litRest dateTag l with
  | none => none
  | some rest =>
    match rest with
    | a :: b :: c :: d :: h1 :: e :: f :: h2 :: g :: h :: _ =>
      if a.isDigit && b.isDigit && c.isDigit && d.isDigit && h1 == '-' &&
         e.isDigit && f.isDigit && h2 == '-' && g.isDigit && h.isDigit then
        some (dateTag.length + 10, (rest.take 10).asString)
      else none
    | _ => none

/-- `CONTEXT_SECTION_VENUE_REGEX` = `^\[VENUE\] ([letters-and-spaces]+)`;
the stored venue is trimmed. -/
def matchVenue (l : List Char) : Option (Nat × String) :=
  match litRest venueTag l with
  | none => none
  | some rest =>
    let run := countWhile isVenueChar rest
    if run = 0 then none
    else some (venueTag.length + run, trimmedString (rest.take run))

/-- Greedy one-to-three digit wind-speed group (nothing follows it in the
pattern). -/
def windAfter (r3 : List Char) : Option (Nat × Nat) :=
  let wr := min (countWhile Char.isDigit r3) 3
  if wr = 0 then none else some (wr, digitsToNat (r3.take wr))

/-- Greedy-with-backtracking temperature group of the weather pattern:
try a `t`-digit temperature (largest first), requiring a following space
and a wind group.  Returns (temperature digits, temperature, wind digits,
wind). -/
def tempAt (r2 : List Char) : Nat → Option (Nat × Nat × Nat × Nat)
  | 0 => none
  | t + 1 =>
    if countWhile Char.isDigit r2 ≥ t + 1 &&
       headIs (r2.drop (t + 1)) ' ' then
      match windAfter (r2.drop (t + 2)) with
      | some (wr, wv) =>
        some (t + 1, digitsToNat (r2.take (t + 1)), wr, wv)
      | none => tempAt r2 t
    else tempAt r2 t

/-- One candidate split of the weather pattern, with the condition group
taking exactly `k` class characters: requires a space, then the
temperature and wind groups. -/
def weatherAt (rest : List Char) (k : Nat) :
    Option (Nat × String × Nat × Nat) :=
  if headIs (rest.drop k) ' ' then
    match tempAt (rest.drop (k + 1)) 3 with
    | some (t, tv, wr, wv) =>
      some (k + 1 + t + 1 + wr, ((rest.take k).asString, tv, wv))
    | none => none
  else none

/-- Backtracking search over the condition length, longest first (the
condition class includes the space, so the regex engine backtracks from
the full greedy run). -/
def weatherSearch (rest : List Char) : Nat → Option (Nat × String × Nat × Nat)
  | 0 => none
  | k + 1 =>
    match weatherAt rest (k + 1) with
    | some r => some r
    | none => weatherSearch rest k

/-- `CONTEXT_SECTION_WEATHER_REGEX` =
`^\[WEATHER\] ([letters-and-spaces]+) (\d{1,3}) (\d{1,3})`.  Returns
(match end, condition, temperature, wind speed); the condition is stored
untrimmed, exactly as captured. -/
def matchWeather (l : List Char) : Option (Nat × String × Nat × Nat) :=
  match litRest weatherTag l with
  | none => none
  | some rest =>
    match weatherSearch rest (countWhile isVenueChar rest) with
    | some (rel, rest') => some (weatherTag.length + rel, rest')
    | none => none

/-- `TEAM_SECTION_TEAM_REGEX` = `^\[TEAM\] (\d{1,3})`. -/
def matchTeam (l : List Char) : Option (Nat × Nat) :=
  match litRest teamTag l with
  | none => none
  | some rest =>
    let k := min (countWhile Char.isDigit rest) 3
    if k = 0 then none
    else some (teamTag.length + k, digitsToNat (rest.take k))

/-- First position (in `Position::iter()` order — the alternation order of
`ALL_POSITIONS`) whose `NAME] ` form is a prefix; the surface names are
mutually prefix-free, so at most one can match. -/
def findPosition : List Position → List Char → Option (Position × Nat)
  | [], _ => none
  | p :: ps, rest =>
    let s := p.toSurface.toList ++ ("] ".toList)
    if s.isPrefixOf rest then some (p, s.length) else findPosition ps rest

/-- `TEAM_SECTION_PLAYER_REGEX` = `^\[(ALL_POSITIONS)\] (PLAYER_NAME)`;
the stored player name is trimmed. -/
def matchPlayer (l : List Char) : Option (Nat × Position × String) :=
  match l with
  | [] => none
  | c :: rest =>
    if c == '[' then
      match findPosition allPositions rest with
      | some (p, plen) =>
        let r2 := rest.drop plen
        let run := countWhile isPlayerNameChar r2
        if run = 0 then none
        else some (1 + plen + run, (p, trimmedString (r2.take run)))
      | none => none
    else none

/-- Digit-count candidate of the inning number (greedy two digits, then
backtrack to one), each requiring a space and `top|bottom` after it. -/
def inningAt (rest : List Char) : Nat → Option (Nat × Nat × TopBottom)
  | 0 => none
  | t + 1 =>
    if countWhile Char.isDigit rest ≥ t + 1 &&
       headIs (rest.drop (t + 1)) ' ' then
      let r2 := rest.drop (t + 2)
      if ("top".toList).isPrefixOf r2 then
        some (t + 1 + 1 + 3, (digitsToNat (rest.take (t + 1)), TopBottom.Top))
      else if ("bottom".toList).isPrefixOf r2 then
        some (t + 1 + 1 + 6,
          (digitsToNat (rest.take (t + 1)), TopBottom.Bottom))
      else inningAt rest t
    else inningAt rest t

/-- `PLAY_SECTION_INNING_REGEX` = `^\[INNING\] (\d{1,2}) (top|bottom)`. -/
def matchInning (l : List Char) : Option (Nat × Nat × TopBottom) :=
  match litRest inningTag l with
  | none => none
  | some rest =>
    match inningAt rest 2 with
    | some (rel, rest') => some (inningTag.length + rel, rest')
    | none => none

/-- Longest play-type surface string that is a prefix of the buffer.  The
source sorts the alternation longest-first, and any two alternatives that
are both prefixes of the same buffer are prefixes of one another, so this
is the alternative that regex alternation selects. -/
def longestPlayType (rest : List Char) : List PlayType → Option (PlayType × Nat)
  | [] => none
  | pt :: pts =>
    let s := pt.toSurface.toList
    match longestPlayType rest pts with
    | some (pt', len') =>
      if s.isPrefixOf rest && len' < s.length then some (pt, s.length)
      else some (pt', len')
    | none =>
      if s.isPrefixOf rest then some (pt, s.length) else none

/-- `PLAY_SECTION_PLAY_REGEX` = `^\[PLAY\] (ALL_PLAY_TYPES)` with the
alternation sorted longest-first. -/
def matchPlay (l : List Char) : Option (Nat × PlayType) :=
  match litRest playTag l with
  | none => none
  | some rest =>
    match longestPlayType rest allPlayTypes with
    | some (pt, len) => some (playTag.length + len, pt)
    | none => none

/-- The `1|2|3|4|home` token alternation (prefix-free). -/
def baseToken (l : List Char) : Option (Nat × Base) :=
  if headIs l '1' then some (1, Base.First)
  else if headIs l '2' then some (1, Base.Second)
  else if headIs l '3' then some (1, Base.Third)
  else if headIs l '4' then some (1, Base.Home)
  else if homeLit.isPrefixOf l then some (4, Base.Home)
  else none

/-- `BASE_NAME` = ` ?(1|2|3|4|home) ?`: optional leading space, token,
optional (greedy) trailing space.  The stored base is the trimmed token. -/
def baseNameMatch (l : List Char) : Option (Nat × Base) :=
  let s1 := if headIs l ' ' then 1 else 0
  let r1 := l.drop s1
  match baseToken r1 with
  | some (tlen, b) =>
    let r2 := r1.drop tlen
    let s2 := if headIs r2 ' ' then 1 else 0
    some (s1 + tlen + s2, b)
  | none => none

/-- `PLAY_SECTION_BASE_REGEX` = `^\[BASE\] (BASE_NAME)`. -/
def matchBase (l : List Char) : Option (Nat × Base) :=
  match litRest baseTag l with
  | none => none
  | some rest =>
    match baseNameMatch rest with
    | some (blen, b) => some (baseTag.length + blen, b)
    | none => none

/-- Shared shape of the `[BATTER]`, `[PITCHER]`, `[CATCHER]`, `[RUNNER]`,
`[SCORING_RUNNER]` patterns: `^\[TAG\] (PLAYER_NAME)`, trimmed value. -/
def matchTagged (tag l : List Char) : Option (Nat × String) :=
  match litRest tag l with
  | none => none
  | some rest =>
    let run := countWhile isPlayerNameChar rest
    if run = 0 then none
    else some (tag.length + run, trimmedString (rest.take run))

/-- `PLAYER_NAME_REGEX` = `^PLAYER_NAME` (the fielders-list name). -/
def matchFielderName (l : List Char) : Option (Nat × String) :=
  let run := countWhile isPlayerNameChar l
  if run = 0 then none else some (run, trimmedString (l.take run))

/-- The `\b` assertion after the base token of `PLAYER_NAME_BASE_REGEX`
(the token always ends in a word character, and the trailing ` ?` may
absorb one space): there is a boundary exactly when the next character is
absent or is not a word character. -/
def boundaryOk (r : List Char) : Bool :=
  match r with
  | [] => true
  | c :: _ => !isWordChar c

/-- Base token followed by the boundary assertion. -/
def tokThenBoundary (r : List Char) : Bool :=
  match baseToken r with
  | some (tlen, _) => boundaryOk (r.drop tlen)
  | none => false

/-- Lookahead ` ?(BASE_NAME)\b` of `PLAYER_NAME_BASE_REGEX`: up to two
optional spaces (the outer ` ?` plus the leading ` ?` of `BASE_NAME`),
the token, then the boundary. -/
def lookaheadBase (r : List Char) : Bool :=
  tokThenBoundary r ||
  (headIs r ' ' && tokThenBoundary (r.drop 1)) ||
  (headIs r ' ' && headIs (r.drop 1) ' ' && tokThenBoundary (r.drop 2))

/-- Lazy scan of `^(PLAYER_NAME+?)(?= ?(BASE_NAME)\b)`: consume name-class
characters one at a time (at least one) and stop at the first point where
the lookahead holds. -/
def nameLazyGo : List Char → Nat → Option Nat
  | [], _ => none
  | c :: rest, consumed =>
    if isPlayerNameChar c then
      if lookaheadBase rest then some (consumed + 1)
      else nameLazyGo rest (consumed + 1)
    else none

/-- `PLAYER_NAME_BASE_REGEX`, used for the runner name of a movement;
the stored name is trimmed. -/
def matchMovementName (l : List Char) : Option (Nat × String) :=
  match nameLazyGo l 0 with
  | some k => some (k, trimmedString (l.take k))
  | none => none

end Mlb

namespace Mlb

/-- Context sub-sections (`enum ContextSection`). -/
inductive ContextSection where
  | Game
  | Date
  | Venue
  | Weather
  deriving DecidableEq, Repr

/-- Team sub-sections (`enum TeamSection`). -/
inductive TeamSection where
  | Team
  | Player
  deriving DecidableEq, Repr

/-- Fielders-list micro-states (`enum FieldersSection`). -/
inductive FieldersSection where
  | Tag
  | Name
  | CommaSpace
  deriving DecidableEq, Repr

/-- Movements-list micro-states (`enum MovementsSection`). -/
inductive MovementsSection where
  | Tag
  | Name
  | StartBase
  | Arrow
  | EndBase
  | Out
  | CommaSpace
  | MovementEnd
  deriving DecidableEq, Repr

/-- Play-section states (`enum PlaySection`). -/
inductive PlaySection where
  | GameStart
  | Inning
  | Play
  | Base
  | Batter
  | Pitcher
  | Catcher
  | Fielders (fs : FieldersSection)
  | Runner
  | ScoringRunner
  | Movements (ms : MovementsSection)
  | PlayEnd
  | GameEnd
  deriving DecidableEq, Repr

/-- Section descriptors (`enum GameSection`). -/
inductive GameSection where
  | Context (cs : ContextSection)
  | HomeTeam (ts : TeamSection)
  | AwayTeam (ts : TeamSection)
  | Plays (ps : PlaySection)
  deriving DecidableEq, Repr

/-- The parser's state (`struct Parser`, minus the debug flag which only
controls printing). -/
structure ParserState where
  input_buffer : List Char
  possible_sections : List GameSection
  game_builder : GameBuilder
  finished : Bool
  live_game_state : LiveGameState
  pinch_runners : List String
  deriving DecidableEq, Repr

/-- `Parser::new` (the `print_debug` argument only controls logging). -/
def ParserState.new : ParserState :=
  { input_buffer := [],
    possible_sections := [GameSection.Context ContextSection.Game],
    game_builder := GameBuilder.new, finished := false,
    live_game_state := LiveGameState.new, pinch_runners := [] }

/-- `Parser::consume_input`: left-truncate the buffer at the match end and
trim leading whitespace. -/
def consumeInput (s : ParserState) (idx : Nat) : ParserState :=
  { s with input_buffer := (s.input_buffer.drop idx).dropWhile isWhiteChar }

/-- Record-update helper mirroring mutation of
`self.game_builder.play_builder`. -/
def ParserState.updatePB (s : ParserState) (f : PlayBuilder → PlayBuilder) :
    ParserState :=
  { s with game_builder :=
      { s.game_builder with play_builder := f s.game_builder.play_builder } }

/-- Record-update helper mirroring mutation of
`self.game_builder.play_builder.movement_builder`. -/
def ParserState.updateMB (s : ParserState)
    (f : MovementBuilder → MovementBuilder) : ParserState :=
  s.updatePB fun pb => { pb with movement_builder := f pb.movement_builder }

/-- Result of attempting one section descriptor (`Ok(true)` /
`Ok(false)` / `Err` in the source, plus the two possible panics modelled
explicitly: `play_type.unwrap()` on `None`, and `plays.last().unwrap()` on
an empty play list). -/
inductive StepRes where
  | progress (s : ParserState)
  | noProgress (s : ParserState)
  | semError (msg : String)
  | crashPlayType
  | crashNoPlays
  deriving DecidableEq, Repr

/-- `Parser::parse_context_section`. -/
def parseContextSection (cs : ContextSection) (s : ParserState) : StepRes :=
  match cs with
  | ContextSection.Game =>
    match matchGame s.input_buffer with
    | some (e, game_pk) =>
      let s := { s with game_builder :=
        { s.game_builder with game_pk := some game_pk } }
      if e = s.input_buffer.length then StepRes.noProgress s
      else
        StepRes.progress { consumeInput s e with possible_sections :=
          [GameSection.Context ContextSection.Date] }
    | none => StepRes.noProgress s
  | ContextSection.Date =>
    match matchDate s.input_buffer with
    | some (e, date) =>
      let s := { s with game_builder :=
        { s.game_builder with date := some date } }
      if e = s.input_buffer.length then StepRes.noProgress s
      else
        StepRes.progress { consumeInput s e with possible_sections :=
          [GameSection.Context ContextSection.Venue] }
    | none => StepRes.noProgress s
  | ContextSection.Venue =>
    match matchVenue s.input_buffer with
    | some (e, venue) =>
      let s := { s with game_builder :=
        { s.game_builder with venue := some venue } }
      if e = s.input_buffer.length then StepRes.noProgress s
      else
        StepRes.progress { consumeInput s e with possible_sections :=
          [GameSection.Context ContextSection.Weather] }
    | none => StepRes.noProgress s
  | ContextSection.Weather =>
    match matchWeather s.input_buffer with
    | some (e, condition, temperature, wind_speed) =>
      let s := { s with game_builder :=
        { s.game_builder with
            weather_condition := some condition,
            weather_temperature := some temperature,
            weather_wind_speed := some wind_speed } }
      if e = s.input_buffer.length then StepRes.noProgress s
      else
        StepRes.progress { consumeInput s e with possible_sections :=
          [GameSection.HomeTeam TeamSection.Team] }
    | none => StepRes.noProgress s

/-- `Parser::parse_team_section`. -/
def parseTeamSection (ts : TeamSection) (home_team : Bool)
    (s : ParserState) : StepRes :=
  match ts with
  | TeamSection.Team =>
    match matchTeam s.input_buffer with
    | some (e, team_id) =>
      let s :=
        if home_team then
          { s with game_builder :=
            { s.game_builder with home_team_id := some team_id } }
        else
          { s with game_builder :=
            { s.game_builder with away_team_id := some team_id } }
      if e = s.input_buffer.length then StepRes.noProgress s
      else
        let s := consumeInput s e
        if home_team then
          StepRes.progress { s with possible_sections :=
            [GameSection.HomeTeam TeamSection.Player] }
        else
          StepRes.progress { s with possible_sections :=
            [GameSection.AwayTeam TeamSection.Player] }
    | none => StepRes.noProgress s
  | TeamSection.Player =>
    match matchPlayer s.input_buffer with
    | some (e, position, player_name) =>
      let player : Player := { position := position, name := player_name }
      let s :=
        if position = Position.PinchRunner then
          { s with pinch_runners := s.pinch_runners ++ [player_name] }
        else s
      if e = s.input_buffer.length then StepRes.noProgress s
      else
        let s := consumeInput s e
        if home_team then
          StepRes.progress { s with
            game_builder := { s.game_builder with home_team_players :=
              s.game_builder.home_team_players ++ [player] },
            possible_sections :=
              [GameSection.HomeTeam TeamSection.Player,
               GameSection.AwayTeam TeamSection.Team] }
        else
          StepRes.progress { s with
            game_builder := { s.game_builder with away_team_players :=
              s.game_builder.away_team_players ++ [player] },
            possible_sections :=
              [GameSection.AwayTeam TeamSection.Player,
               GameSection.Plays PlaySection.GameStart] }
    | none => StepRes.noProgress s

/-- Successor sections chosen by the `[PLAY]` arm after the play type is
set (parser.rs:517-555). -/
def sectionsAfterPlayType (pt : PlayType) : List GameSection :=
  if pt.requires_base then [GameSection.Plays PlaySection.Base]
  else if pt.requires_batter then [GameSection.Plays PlaySection.Batter]
  else if pt.requires_pitcher then [GameSection.Plays PlaySection.Pitcher]
  else if pt.requires_catcher then [GameSection.Plays PlaySection.Catcher]
  else if pt.requires_fielders then
    [GameSection.Plays (PlaySection.Fielders FieldersSection.Tag)]
  else if pt.requires_runner then [GameSection.Plays PlaySection.Runner]
  else if pt.requires_scoring_runner then
    [GameSection.Plays PlaySection.ScoringRunner]
  else [GameSection.Plays (PlaySection.Movements MovementsSection.Tag)]

/-- Successor sections after `[BASE]` (parser.rs:574-603; note the source
tests `requires_runner` *before* `requires_fielders` here). -/
def sectionsAfterBase (pt : PlayType) : List GameSection :=
  if pt.requires_batter then [GameSection.Plays PlaySection.Batter]
  else if pt.requires_pitcher then [GameSection.Plays PlaySection.Pitcher]
  else if pt.requires_catcher then [GameSection.Plays PlaySection.Catcher]
  else if pt.requires_runner then [GameSection.Plays PlaySection.Runner]
  else if pt.requires_fielders then
    [GameSection.Plays (PlaySection.Fielders FieldersSection.Tag)]
  else if pt.requires_scoring_runner then
    [GameSection.Plays PlaySection.ScoringRunner]
  else [GameSection.Plays (PlaySection.Movements MovementsSection.Tag)]

/-- Successor sections after `[BATTER]` (parser.rs:622-647). -/
def sectionsAfterBatter (pt : PlayType) : List GameSection :=
  if pt.requires_pitcher then [GameSection.Plays PlaySection.Pitcher]
  else if pt.requires_catcher then [GameSection.Plays PlaySection.Catcher]
  else if pt.requires_fielders then
    [GameSection.Plays (PlaySection.Fielders FieldersSection.Tag)]
  else if pt.requires_runner then [GameSection.Plays PlaySection.Runner]
  else if pt.requires_scoring_runner then
    [GameSection.Plays PlaySection.ScoringRunner]
  else [GameSection.Plays (PlaySection.Movements MovementsSection.Tag)]

/-- Successor sections after `[PITCHER]` (parser.rs:666-687). -/
def sectionsAfterPitcher (pt : PlayType) : List GameSection :=
  if pt.requires_catcher then [GameSection.Plays PlaySection.Catcher]
  else if pt.requires_fielders then
    [GameSection.Plays (PlaySection.Fielders FieldersSection.Tag)]
  else if pt.requires_runner then [GameSection.Plays PlaySection.Runner]
  else if pt.requires_scoring_runner then
    [GameSection.Plays PlaySection.ScoringRunner]
  else [GameSection.Plays (PlaySection.Movements MovementsSection.Tag)]

/-- Successor sections after `[CATCHER]` (parser.rs:706-723). -/
def sectionsAfterCatcher (pt : PlayType) : List GameSection :=
  if pt.requires_fielders then
    [GameSection.Plays (PlaySection.Fielders FieldersSection.Tag)]
  else if pt.requires_runner then [GameSection.Plays PlaySection.Runner]
  else if pt.requires_scoring_runner then
    [GameSection.Plays PlaySection.ScoringRunner]
  else [GameSection.Plays (PlaySection.Movements MovementsSection.Tag)]

/-- Successor sections after `[RUNNER]` (parser.rs:788-795; the source
tests `requires_scoring_runner` first, then `requires_fielders`). -/
def sectionsAfterRunner (pt : PlayType) : List GameSection :=
  if pt.requires_scoring_runner then
    [GameSection.Plays PlaySection.ScoringRunner]
  else if pt.requires_fielders then
    [GameSection.Plays (PlaySection.Fielders FieldersSection.Tag)]
  else [GameSection.Plays (PlaySection.Movements MovementsSection.Tag)]

/-- `Parser::parse_play_section`. -/
def parsePlaySection (ps : PlaySection) (s : ParserState) : StepRes :=
  match ps with
  | PlaySection.GameStart =>
    if gameStartLit.isPrefixOf s.input_buffer then
      StepRes.progress { consumeInput s gameStartLit.length with
        possible_sections := [GameSection.Plays PlaySection.Inning] }
    else StepRes.noProgress s
  | PlaySection.Inning =>
    match matchInning s.input_buffer with
    | some (e, number, top_bottom) =>
      let inning : Inning := { number := number, top_bottom := top_bottom }
      let s := s.updatePB fun pb => { pb with inning := some inning }
      if e = s.input_buffer.length then StepRes.noProgress s
      else
        let s :=
          if s.live_game_state.inning.top_bottom ≠ top_bottom then
            { s with live_game_state := { s.live_game_state with
                runner_positions := RunnerPositions.empty } }
          else s
        let s := { s with live_game_state :=
          { s.live_game_state with inning := inning } }
        StepRes.progress { consumeInput s e with possible_sections :=
          [GameSection.Plays PlaySection.Play] }
    | none => StepRes.noProgress s
  | PlaySection.Play =>
    match matchPlay s.input_buffer with
    | some (e, play_type) =>
      let s := s.updatePB fun pb => { pb with play_type := some play_type }
      if e = s.input_buffer.length then StepRes.noProgress s
      else
        let s := consumeInput s e
        if play_type = PlayType.GameAdvisory then
          StepRes.progress { s with
            game_builder := s.game_builder.build_play,
            possible_sections := [GameSection.Plays PlaySection.Inning,
                                  GameSection.Plays PlaySection.GameEnd] }
        else
          StepRes.progress { s with
            possible_sections := sectionsAfterPlayType play_type }
    | none => StepRes.noProgress s
  | PlaySection.Base =>
    match matchBase s.input_buffer with
    | some (e, base) =>
      let s := s.updatePB fun pb => { pb with base := some base }
      if e = s.input_buffer.length then StepRes.noProgress s
      else
        let s := consumeInput s e
        match s.game_builder.play_builder.play_type with
        | some pt =>
          StepRes.progress { s with possible_sections := sectionsAfterBase pt }
        | none => StepRes.crashPlayType
    | none => StepRes.noProgress s
  | PlaySection.Batter =>
    match matchTagged batterTag s.input_buffer with
    | some (e, batter) =>
      let s := s.updatePB fun pb => { pb with batter := some batter }
      if e = s.input_buffer.length then StepRes.noProgress s
      else
        let s := consumeInput s e
        match s.game_builder.play_builder.play_type with
        | some pt =>
          StepRes.progress { s with
            possible_sections := sectionsAfterBatter pt }
        | none => StepRes.crashPlayType
    | none => StepRes.noProgress s
  | PlaySection.Pitcher =>
    match matchTagged pitcherTag s.input_buffer with
    | some (e, pitcher) =>
      let s := s.updatePB fun pb => { pb with pitcher := some pitcher }
      if e = s.input_buffer.length then StepRes.noProgress s
      else
        let s := consumeInput s e
        match s.game_builder.play_builder.play_type with
        | some pt =>
          StepRes.progress { s with
            possible_sections := sectionsAfterPitcher pt }
        | none => StepRes.crashPlayType
    | none => StepRes.noProgress s
  | PlaySection.Catcher =>
    match matchTagged catcherTag s.input_buffer with
    | some (e, catcher) =>
      let s := s.updatePB fun pb => { pb with catcher := some catcher }
      if e = s.input_buffer.length then StepRes.noProgress s
      else
        let s := consumeInput s e
        match s.game_builder.play_builder.play_type with
        | some pt =>
          StepRes.progress { s with
            possible_sections := sectionsAfterCatcher pt }
        | none => StepRes.crashPlayType
    | none => StepRes.noProgress s
  | PlaySection.Fielders FieldersSection.Tag =>
    if fieldersTagLit.isPrefixOf s.input_buffer then
      StepRes.progress { consumeInput s fieldersTagLit.length with
        possible_sections :=
          [GameSection.Plays (PlaySection.Fielders FieldersSection.Name)] }
    else StepRes.noProgress s
  | PlaySection.Fielders FieldersSection.Name =>
    match matchFielderName s.input_buffer with
    | some (e, player_name) =>
      if e = s.input_buffer.length then StepRes.noProgress s
      else
        let s := s.updatePB fun pb =>
          { pb with fielders := pb.fielders ++ [player_name] }
        let s := consumeInput s e
        match s.game_builder.play_builder.play_type with
        | some pt =>
          StepRes.progress { s with possible_sections :=
            [GameSection.Plays
              (PlaySection.Fielders FieldersSection.CommaSpace)] ++
            (if pt.requires_scoring_runner then
              [GameSection.Plays PlaySection.ScoringRunner]
             else
              [GameSection.Plays
                (PlaySection.Movements MovementsSection.Tag)]) }
        | none => StepRes.crashPlayType
    | none => StepRes.noProgress s
  | PlaySection.Fielders FieldersSection.CommaSpace =>
    if commaSpaceLit.isPrefixOf s.input_buffer then
      StepRes.progress { consumeInput s commaSpaceLit.length with
        possible_sections :=
          [GameSection.Plays (PlaySection.Fielders FieldersSection.Name)] }
    else StepRes.noProgress s
  | PlaySection.Runner =>
    match matchTagged runnerTag s.input_buffer with
    | some (e, runner) =>
      let s := s.updatePB fun pb => { pb with runner := some runner }
      if e = s.input_buffer.length then StepRes.noProgress s
      else
        let s := consumeInput s e
        match s.game_builder.play_builder.play_type with
        | some pt =>
          StepRes.progress { s with
            possible_sections := sectionsAfterRunner pt }
        | none => StepRes.crashPlayType
    | none => StepRes.noProgress s
  | PlaySection.ScoringRunner =>
    match matchTagged scoringRunnerTag s.input_buffer with
    | some (e, scoring_runner) =>
      let s := s.updatePB fun pb =>
        { pb with scoring_runner := some scoring_runner }
      if e = s.input_buffer.length then StepRes.noProgress s
      else
        StepRes.progress { consumeInput s e with possible_sections :=
          [GameSection.Plays (PlaySection.Movements MovementsSection.Tag)] }
    | none => StepRes.noProgress s
  | PlaySection.Movements MovementsSection.Tag =>
    if movementsTagLit.isPrefixOf s.input_buffer then
      StepRes.progress { consumeInput s movementsTagLit.length with
        possible_sections :=
          [GameSection.Plays (PlaySection.Movements MovementsSection.Name)] }
    else StepRes.noProgress s
  | PlaySection.Movements MovementsSection.Name =>
    match matchMovementName s.input_buffer with
    | some (e, player_name) =>
      if e = s.input_buffer.length then StepRes.noProgress s
      else
        let s := s.updateMB fun mb => { mb with runner := some player_name }
        StepRes.progress { consumeInput s e with possible_sections :=
          [GameSection.Plays
            (PlaySection.Movements MovementsSection.StartBase)] }
    | none => StepRes.noProgress s
  | PlaySection.Movements MovementsSection.StartBase =>
    match baseNameMatch s.input_buffer with
    | some (e, base) =>
      let s := s.updateMB fun mb => { mb with from' := some base }
      if e = s.input_buffer.length then StepRes.noProgress s
      else
        StepRes.progress { consumeInput s e with possible_sections :=
          [GameSection.Plays
            (PlaySection.Movements MovementsSection.Arrow)] }
    | none => StepRes.noProgress s
  | PlaySection.Movements MovementsSection.Arrow =>
    if arrowLit.isPrefixOf s.input_buffer then
      StepRes.progress { consumeInput s arrowLit.length with
        possible_sections :=
          [GameSection.Plays
            (PlaySection.Movements MovementsSection.EndBase)] }
    else StepRes.noProgress s
  | PlaySection.Movements MovementsSection.EndBase =>
    match baseNameMatch s.input_buffer with
    | some (e, base) =>
      let s := s.updateMB fun mb => { mb with to' := some base }
      if e = s.input_buffer.length then StepRes.noProgress s
      else
        StepRes.progress { consumeInput s e with possible_sections :=
          [GameSection.Plays (PlaySection.Movements MovementsSection.Out),
           GameSection.Plays
             (PlaySection.Movements MovementsSection.MovementEnd)] }
    | none => StepRes.noProgress s
  | PlaySection.Movements MovementsSection.Out =>
    if outLit.isPrefixOf s.input_buffer then
      let s := s.updateMB fun mb => { mb with out := true }
      if s.input_buffer.length = outLit.length then StepRes.noProgress s
      else
        StepRes.progress { consumeInput s outLit.length with
          possible_sections :=
            [GameSection.Plays
              (PlaySection.Movements MovementsSection.MovementEnd)] }
    else StepRes.noProgress s
  | PlaySection.Movements MovementsSection.CommaSpace =>
    if commaSpaceLit.isPrefixOf s.input_buffer then
      let s := s.updatePB PlayBuilder.build_movement
      StepRes.progress { consumeInput s commaSpaceLit.length with
        possible_sections :=
          [GameSection.Plays
            (PlaySection.Movements MovementsSection.Name)] }
    else StepRes.noProgress s
  | PlaySection.Movements MovementsSection.MovementEnd =>
    StepRes.progress { s with possible_sections :=
      [GameSection.Plays (PlaySection.Movements MovementsSection.Out),
       GameSection.Plays (PlaySection.Movements MovementsSection.CommaSpace),
       GameSection.Plays PlaySection.PlayEnd] }
  | PlaySection.PlayEnd =>
    if playEndLit.isPrefixOf s.input_buffer then
      let s := s.updatePB PlayBuilder.build_movement
      let s := consumeInput s playEndLit.length
      let s := { s with game_builder := s.game_builder.build_play }
      match s.game_builder.plays.getLast? with
      | none => StepRes.crashNoPlays
      | some lastPlay =>
        match s.live_game_state.runner_positions.process_movements
            lastPlay.movements s.pinch_runners with
        | Except.error e =>
          StepRes.semError ("Inning " ++ lastPlay.inning.toSurface ++ ": " ++ e)
        | Except.ok rp =>
          StepRes.progress { s with
            live_game_state :=
              { s.live_game_state with runner_positions := rp },
            possible_sections := [GameSection.Plays PlaySection.Inning,
                                  GameSection.Plays PlaySection.GameEnd] }
    else StepRes.noProgress s
  | PlaySection.GameEnd =>
    if gameEndLit.isPrefixOf s.input_buffer then
      StepRes.progress { consumeInput s gameEndLit.length with
        finished := true }
    else StepRes.noProgress s

/-- Attempt one admissible descriptor (the dispatch of
`parse_input_buffer`). -/
def trySection (d : GameSection) (s : ParserState) : StepRes :=
  match d with
  | GameSection.Context cs => parseContextSection cs s
  | GameSection.HomeTeam ts => parseTeamSection ts true s
  | GameSection.AwayTeam ts => parseTeamSection ts false s
  | GameSection.Plays ps => parsePlaySection ps s

/-- Walk the cloned admissible list in order, threading the state (arms
that fail may still have mutated builders); the first arm to consume
wins. -/
def stepSections : List GameSection → ParserState → StepRes
  | [], s => StepRes.noProgress s
  | d :: rest, s =>
    match trySection d s with
    | StepRes.progress s' => StepRes.progress s'
    | StepRes.noProgress s' => stepSections rest s'
    | r => r

/-- `Parser::parse_input_buffer`. -/
def parseInputBuffer (s : ParserState) : StepRes :=
  stepSections s.possible_sections s

/-- Outcome of a `parse_input` call. -/
inductive ParseOutcome where
  | ok (s : ParserState)
  | semError (msg : String)
  | crashPlayType
  | crashNoPlays
  deriving DecidableEq, Repr

/-- The driving loop of `Parser::parse_input`: run steps until the parser
is finished or no admissible descriptor consumes.  `fuel` bounds the
number of iterations (the source loops without bound; ample fuel makes the
two agree on every run that terminates within it). -/
def parseLoop : Nat → ParserState → ParseOutcome
  | 0, s => ParseOutcome.ok s
  | fuel + 1, s =>
    if s.finished then ParseOutcome.ok s
    else
      match parseInputBuffer s with
      | StepRes.progress s' => parseLoop fuel s'
      | StepRes.noProgress s' => ParseOutcome.ok s'
      | StepRes.semError m => ParseOutcome.semError m
      | StepRes.crashPlayType => ParseOutcome.crashPlayType
      | StepRes.crashNoPlays => ParseOutcome.crashNoPlays

/-- `Parser::parse_input`: strip the chunk's leading newlines
(`INITIAL_NEWLINES_REGEX`), append it to the buffer, and drive the loop. -/
def parse_input (fuel : Nat) (s : ParserState) (chunk : List Char) :
    ParseOutcome :=
  parseLoop fuel
    { s with input_buffer :=
        s.input_buffer ++ chunk.dropWhile (fun c => c == '\n') }

/-- Feed a list of chunks in order, stopping at the first error. -/
def feedChunks (fuel : Nat) : List (List Char) → ParserState → ParseOutcome
  | [], s => ParseOutcome.ok s
  | c :: cs, s =>
    match parse_input fuel s c with
    | ParseOutcome.ok s' => feedChunks fuel cs s'
    | r => r

/-- `Parser::complete`: the finalized game, only once `[GAME_END]` has been
consumed. -/
def completeGame (s : ParserState) : Option Game :=
  if s.finished then s.game_builder.build else none

/-- State projection of an outcome (errors and crashes carry none). -/
def outcomeState : ParseOutcome → Option ParserState
  | ParseOutcome.ok s => some s
  | _ => none

end Mlb

namespace Mlb

/-! Claim-level predicates and concrete inputs. -/

/-- A forbidden movement direction in the words of the validation rules:
`Third → Second`, `Third → First`, or `Second → First`. -/
def badDirection (m : Movement) : Prop :=
  (m.from' = Base.Third ∧ m.to' = Base.Second) ∨
  (m.from' = Base.Third ∧ m.to' = Base.First) ∨
  (m.from' = Base.Second ∧ m.to' = Base.First)

/-- An occupancy violation in the words of the validation rules: the
movement starts from First/Second/Third and either the slot's occupant
differs from the movement's runner while that runner is not a pinch
runner, or the slot is empty. -/
def badOccupancy (rp : RunnerPositions) (pinch_runners : List String)
    (m : Movement) : Prop :=
  (m.from' = Base.First ∨ m.from' = Base.Second ∨ m.from' = Base.Third) ∧
  ((∃ r, rp.get m.from' = some r ∧ m.runner ≠ r ∧ ¬ m.runner ∈ pinch_runners)
    ∨ rp.get m.from' = none)

/-- Sections that only become admissible once a play type has been set
(every `Plays` state strictly inside a play). -/
def needsPlayType : GameSection → Bool
  | GameSection.Plays PlaySection.GameStart => false
  | GameSection.Plays PlaySection.Inning => false
  | GameSection.Plays PlaySection.Play => false
  | GameSection.Plays PlaySection.GameEnd => false
  | GameSection.Plays _ => true
  | _ => false

/-- The play sub-section descriptors named by the admissibility claim:
Base, Batter, Pitcher, Catcher, Fielders(Name), Runner. -/
def claimSubSection : GameSection → Bool
  | GameSection.Plays PlaySection.Base => true
  | GameSection.Plays PlaySection.Batter => true
  | GameSection.Plays PlaySection.Pitcher => true
  | GameSection.Plays PlaySection.Catcher => true
  | GameSection.Plays (PlaySection.Fielders FieldersSection.Name) => true
  | GameSection.Plays PlaySection.Runner => true
  | _ => false

/-- The structural invariant carried by the machine: every admissible
section that lies inside a play implies the play type is set. -/
def SInv (s : ParserState) : Prop :=
  ∀ d ∈ s.possible_sections, needsPlayType d = true →
    s.game_builder.play_builder.play_type.isSome = true

/-- A complete minimal transcript whose inter-token whitespace contains
one double space (between the home `[TEAM]` id and its player).  Fed
whole, it parses to a finished game. -/
def t1 : List Char :=
  ("[GAME] 1 [DATE] 2020-01-01 [VENUE] V [WEATHER] Sunny 1 2 [TEAM] 1  [PITCHER] A [TEAM] 2 [PITCHER] B [GAME_START] [INNING] 1 top [PLAY] Game Advisory [GAME_END]").toList

/-- The prefix of `t1` up to and including the first of the two spaces. -/
def t1a : List Char :=
  ("[GAME] 1 [DATE] 2020-01-01 [VENUE] V [WEATHER] Sunny 1 2 [TEAM] 1 ").toList

/-- The rest of `t1`, beginning with the second space. -/
def t1b : List Char :=
  (" [PITCHER] A [TEAM] 2 [PITCHER] B [GAME_START] [INNING] 1 top [PLAY] Game Advisory [GAME_END]").toList

/-- A transcript whose only play is a surface-well-formed `Stolen Base`
play (`[BASE]`, `[RUNNER]`, movements, `;`). -/
def t2 : List Char :=
  ("[GAME] 1 [DATE] 2020-01-01 [VENUE] V [WEATHER] Sunny 1 2 [TEAM] 1 [PITCHER] A [TEAM] 2 [PITCHER] B [GAME_START] [INNING] 1 top [PLAY] Stolen Base [BASE] 2 [RUNNER] C [MOVEMENTS] C home -> 1;").toList

/-- A transcript whose first play element carries two consecutive
` [out]` literals after a single movement. -/
def t9 : List Char :=
  ("[GAME] 1 [DATE] 2020-01-01 [VENUE] V [WEATHER] Sunny 1 2 [TEAM] 1 [PITCHER] A [TEAM] 2 [PITCHER] B [GAME_START] [INNING] 1 top [PLAY] Balk [PITCHER] A [MOVEMENTS] B home -> home [out] [out], C home -> 1; [GAME_END]").toList

/-- A transcript whose second play lists the raw movements
`A 1 -> 3, A 3 -> 2` (which simplify to the single movement `A 1 -> 3`
for validation). -/
def t8 : List Char :=
  ("[GAME] 1 [DATE] 2020-01-01 [VENUE] V [WEATHER] Sunny 1 2 [TEAM] 1 [PITCHER] A [TEAM] 2 [PITCHER] B [GAME_START] [INNING] 1 top [PLAY] Single [BATTER] A [PITCHER] P [MOVEMENTS] A home -> 1; [INNING] 1 top [PLAY] Balk [PITCHER] P [MOVEMENTS] A 1 -> 3, A 3 -> 2; [GAME_END]").toList

/-- Parser state holding exactly `[GAME] 1` in its buffer. -/
def s7 : ParserState :=
  { ParserState.new with input_buffer := ("[GAME] 1").toList }

/-- The state the attempt on `s7` returns: untouched buffer and sections,
but `game_pk` already recorded. -/
def s7' : ParserState :=
  { s7 with game_builder := { GameBuilder.new with game_pk := some 1 } }

/-- A transcript prefix that leaves the parser with `Batter` admissible. -/
def c10chunks : List (List Char) :=
  [("[GAME] 1 [DATE] 2020-01-01 [VENUE] V [WEATHER] Sunny 1 2 [TEAM] 1 [PITCHER] A [TEAM] 2 [PITCHER] B [GAME_START] [INNING] 1 top [PLAY] Lineout ").toList]

/-- The parser state reached by `c10chunks`. -/
def c10state : ParserState :=
  (outcomeState (feedChunks 300 c10chunks ParserState.new)).getD
    ParserState.new

/-- Movement list used to witness the occupancy-update theorem. -/
def mv6 : List Movement :=
  [{ runner := "A", from' := Base.Home, to' := Base.First, out := false }]

/-- The positions produced by processing `mv6` from empty bases. -/
def rp6 : RunnerPositions :=
  { home := none, first := some "A", second := none, third := none }

/-- Movement list used to witness the no-regression theorem. -/
def mv8 : List Movement :=
  [{ runner := "A", from' := Base.Home, to' := Base.Second, out := false }]

/-- The positions produced by processing `mv8` from empty bases. -/
def rp8 : RunnerPositions :=
  { home := none, first := none, second := some "A", third := none }

end Mlb

namespace Mlb

/-! Lemmas about movement processing. -/

theorem applyMovement_get (acc : RunnerPositions) (m : Movement) (b : Base) :
    (applyMovement acc m).get b =
      if m.out = false ∧ m.to' = b then some m.runner else acc.get b := by
  obtain ⟨r, f, t, o⟩ := m
  cases o <;> cases t <;> cases b <;>
    simp [applyMovement, RunnerPositions.get]

theorem processMovementsGo_ok_frame (rp : RunnerPositions)
    (pinch : List String) (l : List Movement) :
    ∀ acc res : RunnerPositions,
      processMovementsGo rp pinch l acc = Except.ok res →
      ∀ b : Base, (∀ m ∈ l, m.out = false → m.to' ≠ b) →
      res.get b = acc.get b := by
  induction l with
  | nil =>
    intro acc res h b _
    simp only [processMovementsGo] at h
    cases h
    rfl
  | cons m rest ih =>
    intro acc res h b hb
    simp only [processMovementsGo] at h
    split at h
    · cases h
    · split at h
      · cases h
      · have hres := ih (applyMovement acc m) res h b
          (fun m' hm' hout => hb m' (List.mem_cons_of_mem _ hm') hout)
        rw [hres, applyMovement_get,
          if_neg (fun hc => hb m (List.mem_cons_self _ _) hc.1 hc.2)]

theorem processMovementsGo_ok_stable (rp : RunnerPositions)
    (pinch : List String) (l : List Movement) :
    ∀ (acc res : RunnerPositions) (b : Base) (x : String),
      processMovementsGo rp pinch l acc = Except.ok res →
      (∀ m ∈ l, m.out = false → m.to' = b → m.runner = x) →
      acc.get b = some x → res.get b = some x := by
  induction l with
  | nil =>
    intro acc res b x h _ hacc
    simp only [processMovementsGo] at h
    cases h
    exact hacc
  | cons m rest ih =>
    intro acc res b x h hall hacc
    simp only [processMovementsGo] at h
    split at h
    · cases h
    · split at h
      · cases h
      · refine ih (applyMovement acc m) res b x h
          (fun m' hm' => hall m' (List.mem_cons_of_mem _ hm')) ?_
        rw [applyMovement_get]
        split
        · rename_i hc
          rw [hall m (List.mem_cons_self _ _) hc.1 hc.2]
        · exact hacc

theorem processMovementsGo_ok_set (rp : RunnerPositions)
    (pinch : List String) (l : List Movement) :
    ∀ (acc res : RunnerPositions) (m : Movement),
      processMovementsGo rp pinch l acc = Except.ok res →
      m ∈ l → m.out = false →
      (∀ m' ∈ l, m'.out = false → m'.to' = m.to' → m' = m) →
      res.get m.to' = some m.runner := by
  induction l with
  | nil =>
    intro acc res m _ hm
    cases hm
  | cons m0 rest ih =>
    intro acc res m h hm hout huniq
    simp only [processMovementsGo] at h
    split at h
    · cases h
    · split at h
      · cases h
      · rcases List.mem_cons.mp hm with heq | hmem
        · subst heq
          refine processMovementsGo_ok_stable rp pinch rest
            (applyMovement acc m) res m.to' m.runner h ?_ ?_
          · intro m' hm' hout' hto'
            rw [huniq m' (List.mem_cons_of_mem _ hm') hout' hto']
          · rw [applyMovement_get, if_pos ⟨hout, rfl⟩]
        · exact ih (applyMovement acc m0) res m h hmem hout
            (fun m' hm' => huniq m' (List.mem_cons_of_mem _ hm'))

theorem processMovementsGo_ok_dir (rp : RunnerPositions)
    (pinch : List String) (l : List Movement) :
    ∀ acc res : RunnerPositions,
      processMovementsGo rp pinch l acc = Except.ok res →
      ∀ m ∈ l, directionViolation m = none := by
  induction l with
  | nil =>
    intro acc res _ m hm
    cases hm
  | cons m0 rest ih =>
    intro acc res h m hm
    simp only [processMovementsGo] at h
    split at h
    · cases h
    · split at h
      · cases h
      · rcases List.mem_cons.mp hm with heq | hmem
        · subst heq
          assumption
        · exact ih (applyMovement acc m0) res h m hmem

theorem processMovementsGo_error_iff (rp : RunnerPositions)
    (pinch : List String) (l : List Movement) :
    ∀ acc : RunnerPositions,
      (∃ e, processMovementsGo rp pinch l acc = Except.error e) ↔
      ∃ m ∈ l, (directionViolation m).isSome = true ∨
        (occupancyViolation rp pinch m).isSome = true := by
  induction l with
  | nil =>
    intro acc
    simp [processMovementsGo]
  | cons m0 rest ih =>
    intro acc
    cases hdir : directionViolation m0 with
    | some e0 =>
      constructor
      · intro _
        exact ⟨m0, List.mem_cons_self _ _, Or.inl (by simp [hdir])⟩
      · intro _
        exact ⟨e0, by simp [processMovementsGo, hdir]⟩
    | none =>
      cases hocc : occupancyViolation rp pinch m0 with
      | some e0 =>
        constructor
        · intro _
          exact ⟨m0, List.mem_cons_self _ _, Or.inr (by simp [hocc])⟩
        · intro _
          exact ⟨e0, by simp [processMovementsGo, hdir, hocc]⟩
      | none =>
        have hrec := ih (applyMovement acc m0)
        constructor
        · intro ⟨e, he⟩
          simp only [processMovementsGo, hdir, hocc] at he
          obtain ⟨m, hm, hbad⟩ := hrec.mp ⟨e, he⟩
          exact ⟨m, List.mem_cons_of_mem _ hm, hbad⟩
        · intro ⟨m, hm, hbad⟩
          rcases List.mem_cons.mp hm with heq | hmem
          · subst heq
            simp [hdir, hocc] at hbad
          · obtain ⟨e, he⟩ := hrec.mpr ⟨m, hmem, hbad⟩
            exact ⟨e, by simp [processMovementsGo, hdir, hocc, he]⟩

theorem directionViolation_isSome_iff (m : Movement) :
    (directionViolation m).isSome = true ↔ badDirection m := by
  obtain ⟨r, f, t, o⟩ := m
  cases f <;> cases t <;>
    simp [directionViolation, badDirection]

theorem occupancyViolation_isSome_iff (rp : RunnerPositions)
    (pinch : List String) (m : Movement) :
    (occupancyViolation rp pinch m).isSome = true ↔
      badOccupancy rp pinch m := by
  obtain ⟨r, f, t, o⟩ := m
  cases f
  · simp [occupancyViolation, badOccupancy, RunnerPositions.get]
  · cases hrp : rp.first with
    | none => simp [occupancyViolation, badOccupancy, RunnerPositions.get, hrp]
    | some occ =>
      by_cases hc : r ≠ occ ∧ ¬ r ∈ pinch
      · simp [occupancyViolation, badOccupancy, RunnerPositions.get, hrp, hc]
      · simp only [occupancyViolation, badOccupancy, RunnerPositions.get, hrp]
        simp [hc]
  · cases hrp : rp.second with
    | none => simp [occupancyViolation, badOccupancy, RunnerPositions.get, hrp]
    | some occ =>
      by_cases hc : r ≠ occ ∧ ¬ r ∈ pinch
      · simp [occupancyViolation, badOccupancy, RunnerPositions.get, hrp, hc]
      · simp only [occupancyViolation, badOccupancy, RunnerPositions.get, hrp]
        simp [hc]
  · cases hrp : rp.third with
    | none => simp [occupancyViolation, badOccupancy, RunnerPositions.get, hrp]
    | some occ =>
      by_cases hc : r ≠ occ ∧ ¬ r ∈ pinch
      · simp [occupancyViolation, badOccupancy, RunnerPositions.get, hrp, hc]
      · simp only [occupancyViolation, badOccupancy, RunnerPositions.get, hrp]
        simp [hc]

theorem directionViolation_none_forward (m : Movement)
    (h : directionViolation m = none) :
    m.from'.fromRank ≤ m.to'.toRank := by
  obtain ⟨r, f, t, o⟩ := m
  cases f <;> cases t <;>
    simp_all [directionViolation, Base.fromRank, Base.toRank]

end Mlb

namespace Mlb

/-- Claim C5: `process_movements` returns a `SemanticViolation` error if
and only if some movement of the simplified list has a forbidden direction
(Third→Second, Third→First, Second→First), or starts from an occupied
First/Second/Third slot whose occupant differs from the movement's runner
while that runner is not in the pinch-runner roster, or starts from an
empty First/Second/Third slot; movements starting from Home impose no
occupancy precondition. -/
theorem process_movements_error_iff (rp : RunnerPositions)
    (movements : List Movement) (pinch_runners : List String) :
    (∃ e, rp.process_movements movements pinch_runners = Except.error e) ↔
    ∃ m ∈ simplify_movements movements,
      badDirection m ∨ badOccupancy rp pinch_runners m := by
  rw [show rp.process_movements movements pinch_runners =
    processMovementsGo rp pinch_runners (simplify_movements movements) rp
    from rfl]
  rw [processMovementsGo_error_iff rp pinch_runners
    (simplify_movements movements) rp]
  exact exists_congr fun m => and_congr_right fun _ =>
    or_congr (directionViolation_isSome_iff m)
      (occupancyViolation_isSome_iff rp pinch_runners m)

/-- Claim C6: when `process_movements` succeeds, the new occupancy equals
the old occupancy updated only at the `to` slots of non-out simplified
movements; every slot not targeted by a non-out simplified movement —
including the `from` slot of every movement and every slot only targeted
by out-flagged movements — is unchanged, and a slot targeted by a unique
non-out simplified movement holds that movement's runner. -/
theorem process_movements_success_update (rp : RunnerPositions)
    (movements : List Movement) (pinch_runners : List String)
    (rp' : RunnerPositions)
    (h : rp.process_movements movements pinch_runners = Except.ok rp') :
    (∀ b : Base,
      (∀ m ∈ simplify_movements movements, m.out = false → m.to' ≠ b) →
      rp'.get b = rp.get b) ∧
    (∀ m ∈ simplify_movements movements, m.out = false →
      (∀ m' ∈ simplify_movements movements,
        m'.out = false → m'.to' = m.to' → m' = m) →
      rp'.get m.to' = some m.runner) :=
  ⟨fun b hb => processMovementsGo_ok_frame rp pinch_runners
      (simplify_movements movements) rp rp' h b hb,
   fun m hm hout huniq => processMovementsGo_ok_set rp pinch_runners
      (simplify_movements movements) rp rp' m h hm hout huniq⟩

/-- Witness for C6 at a concrete input: processing `A home -> 1` from
empty bases succeeds; the untouched Second slot keeps its old value and
the targeted First slot holds the runner. -/
theorem process_movements_success_update_witness :
    RunnerPositions.empty.process_movements mv6 [] = Except.ok rp6 ∧
    rp6.get Base.Second = RunnerPositions.empty.get Base.Second ∧
    rp6.get Base.First = some "A" :=
  have h : RunnerPositions.empty.process_movements mv6 [] =
      Except.ok rp6 := by rfl
  ⟨h,
   (process_movements_success_update RunnerPositions.empty mv6 [] rp6 h).1
     Base.Second (by decide),
   (process_movements_success_update RunnerPositions.empty mv6 [] rp6 h).2
     { runner := "A", from' := Base.Home, to' := Base.First, out := false }
     (by decide) rfl (by decide)⟩

/-- Claim C8 (amended): on success every movement of the *simplified* list
moves forward (`from ≤ to` in the ordering Home → First → Second → Third →
Home); the stored raw list of a play need not satisfy this (see the
counterexample). -/
theorem simplified_movements_never_regress (rp : RunnerPositions)
    (movements : List Movement) (pinch_runners : List String)
    (rp' : RunnerPositions)
    (h : rp.process_movements movements pinch_runners = Except.ok rp') :
    ∀ m ∈ simplify_movements movements,
      m.from'.fromRank ≤ m.to'.toRank :=
  fun m hm => directionViolation_none_forward m
    (processMovementsGo_ok_dir rp pinch_runners
      (simplify_movements movements) rp rp' h m hm)

/-- Witness for the amended C8 at a concrete input. -/
theorem simplified_movements_never_regress_witness :
    RunnerPositions.empty.process_movements mv8 [] = Except.ok rp8 ∧
    Base.fromRank Base.Home ≤ Base.toRank Base.Second :=
  have h : RunnerPositions.empty.process_movements mv8 [] =
      Except.ok rp8 := by rfl
  ⟨h, simplified_movements_never_regress RunnerPositions.empty mv8 [] rp8 h
    { runner := "A", from' := Base.Home, to' := Base.Second, out := false }
    (by decide)⟩

/-- Claim C8 is false of the *stored* movements: the accepted transcript
`t8` finishes, and its second play's stored movement list contains
`A 3 -> 2`, which regresses (`from = Third` exceeds `to = Second` in the
forward ordering). -/
theorem stored_movements_can_regress :
    (outcomeState (feedChunks 500 [t8] ParserState.new)).map
      (fun s => (s.finished, s.game_builder.plays.map (·.movements))) =
      some (true,
        [[{ runner := "A", from' := Base.Home, to' := Base.First,
            out := false }],
         [{ runner := "A", from' := Base.First, to' := Base.Third,
            out := false },
          { runner := "A", from' := Base.Third, to' := Base.Second,
            out := false }]]) ∧
    ¬ (Base.fromRank Base.Third ≤ Base.toRank Base.Second) :=
  ⟨by rfl, by decide⟩

/-- Claim C3 as stated is false of the code: for `StolenBase`,
`requires_scoring_runner` is `false` and `requires_runner` is `true`. -/
theorem stolen_base_requirements_refute :
    PlayType.requires_scoring_runner PlayType.StolenBase = false ∧
    PlayType.requires_runner PlayType.StolenBase = true := by decide

/-- Claim C3 (amended): the requirement predicates for `StolenBase` yield
exactly the set {base, runner}: `requires_base` and `requires_runner` are
true, and `requires_scoring_runner`, `requires_batter`,
`requires_pitcher`, `requires_catcher`, `requires_fielders` are false. -/
theorem stolen_base_requirements_exact :
    PlayType.requires_base PlayType.StolenBase = true ∧
    PlayType.requires_runner PlayType.StolenBase = true ∧
    PlayType.requires_scoring_runner PlayType.StolenBase = false ∧
    PlayType.requires_batter PlayType.StolenBase = false ∧
    PlayType.requires_pitcher PlayType.StolenBase = false ∧
    PlayType.requires_catcher PlayType.StolenBase = false ∧
    PlayType.requires_fielders PlayType.StolenBase = false := by decide

/-- Claim C4: with play type `SacBunt` and the batter, pitcher and runner
slots set, `PlayBuilder::build` returns `none` (its `SacBunt` and
`SacBuntDoublePlay` arms read the `scoring_runner` slot for the `runner`
field); setting `scoring_runner` instead makes it succeed with that value
in the `runner` field. -/
theorem sac_bunt_build_uses_scoring_runner_slot :
    PlayBuilder.build { PlayBuilder.new with
      play_type := some PlayType.SacBunt,
      inning := some { number := 1, top_bottom := TopBottom.Top },
      batter := some "A", pitcher := some "B", fielders := ["C"],
      runner := some "R" } = none ∧
    PlayBuilder.build { PlayBuilder.new with
      play_type := some PlayType.SacBuntDoublePlay,
      inning := some { number := 1, top_bottom := TopBottom.Top },
      batter := some "A", pitcher := some "B", fielders := ["C"],
      runner := some "R" } = none ∧
    PlayBuilder.build { PlayBuilder.new with
      play_type := some PlayType.SacBunt,
      inning := some { number := 1, top_bottom := TopBottom.Top },
      batter := some "A", pitcher := some "B", fielders := ["C"],
      runner := some "R", scoring_runner := some "S" } =
      some { inning := { number := 1, top_bottom := TopBottom.Top },
             play_content := PlayContent.SacBunt "A" "B" ["C"] "S",
             movements := [] } := by
  refine ⟨by rfl, by rfl, by rfl⟩

/-- Claim C2: the transcript `t2`, whose play section is well-formed per
the surface grammar (a complete `Stolen Base` play closed by `;`), drives
the parser into the failed-build branch at `PlayEnd`: `PlayBuilder::build`
returns `none` (the runner was stored in the `runner` slot but the
`StolenBase` arm reads `scoring_runner`), no play is appended, and the
source's `plays.last().unwrap()` panics — modelled as the `crashNoPlays`
outcome. -/
theorem stolen_base_play_build_fails :
    feedChunks 500 [t2] ParserState.new = ParseOutcome.crashNoPlays := by
  rfl

/-- Claim C1: chunk-obliviousness fails.  `t1a ++ t1b = t1` is a partition
of the valid transcript `t1` (whose team id is followed by two spaces);
fed whole the parser finishes and `complete()` returns a game, but fed as
the two chunks it never finishes (the second chunk's leading space is
neither stripped on ingest — only newlines are — nor matched by any
anchored primitive) and `complete()` returns `none`. -/
theorem chunked_parse_differs_from_whole :
    t1a ++ t1b = t1 ∧
    (outcomeState (feedChunks 500 [t1] ParserState.new)).map
      (fun s => (s.finished, (completeGame s).isSome)) =
      some (true, true) ∧
    (outcomeState (feedChunks 500 [t1a, t1b] ParserState.new)).map
      (fun s => (s.finished, (completeGame s).isSome)) =
      some (false, false) :=
  ⟨by rfl, by rfl, by rfl⟩

/-- Claim C9: the transcript `t9`, in which a single movement is followed
by the two literals ` [out] [out]` and then a comma, is accepted
(`finished = true`), and exactly one movement with `out = true` is
committed for that element. -/
theorem double_out_literal_accepted :
    (outcomeState (feedChunks 500 [t9] ParserState.new)).map
      (fun s => (s.finished, s.game_builder.plays.map (·.movements))) =
      some (true,
        [[{ runner := "B", from' := Base.Home, to' := Base.Home,
            out := true },
          { runner := "C", from' := Base.Home, to' := Base.First,
            out := false }]]) := by
  rfl

/-- Claim C7 as stated is false of the code: the lone buffer `[GAME] 1`
matches the game primitive with its end at the buffer length, so the step
returns no-progress with the buffer and the admissible set untouched —
but the builder has already recorded `game_pk = 1`, which differs from its
prior empty state. -/
theorem no_progress_step_mutates_builder :
    parseInputBuffer s7 = StepRes.noProgress s7' ∧
    s7'.input_buffer = s7.input_buffer ∧
    s7'.possible_sections = s7.possible_sections ∧
    s7'.game_builder.game_pk = some 1 ∧
    s7.game_builder.game_pk = none :=
  ⟨by rfl, by rfl, by rfl, by rfl, by rfl⟩

end Mlb

namespace Mlb


theorem consumeInput_game_builder (s : ParserState) (idx : Nat) :
    (consumeInput s idx).game_builder = s.game_builder := rfl

theorem updatePB_pb (s : ParserState) (f : PlayBuilder → PlayBuilder) :
    (s.updatePB f).game_builder.play_builder =
      f s.game_builder.play_builder := rfl

theorem build_movement_play_type (pb : PlayBuilder) :
    (pb.build_movement).play_type = pb.play_type := by
  unfold PlayBuilder.build_movement
  split <;> rfl

theorem trySection_noProgress_inv (d : GameSection) (s s' : ParserState)
    (h : trySection d s = StepRes.noProgress s') :
    s'.input_buffer = s.input_buffer ∧
    s'.possible_sections = s.possible_sections ∧
    (s.game_builder.play_builder.play_type.isSome = true →
      s'.game_builder.play_builder.play_type.isSome = true) := by
  cases d with
  | Context cs =>
    cases cs <;>
      (simp only [trySection, parseContextSection] at h;
       repeat' split at h) <;>
      cases h <;>
      first
        | exact ⟨rfl, rfl, fun hh => hh⟩
        | exact ⟨rfl, rfl, fun _ => rfl⟩
  | HomeTeam ts =>
    cases ts <;>
      (simp only [trySection, parseTeamSection] at h;
       repeat' split at h) <;>
      cases h <;>
      first
        | exact ⟨rfl, rfl, fun hh => hh⟩
        | exact ⟨rfl, rfl, fun _ => rfl⟩
  | AwayTeam ts =>
    cases ts <;>
      (simp only [trySection, parseTeamSection] at h;
       repeat' split at h) <;>
      cases h <;>
      first
        | exact ⟨rfl, rfl, fun hh => hh⟩
        | exact ⟨rfl, rfl, fun _ => rfl⟩
  | Plays ps =>
    cases ps with
    | Fielders fs =>
      cases fs <;>
        (simp only [trySection, parsePlaySection] at h;
         repeat' split at h) <;>
        cases h <;>
        first
          | exact ⟨rfl, rfl, fun hh => hh⟩
          | exact ⟨rfl, rfl, fun _ => rfl⟩
    | Movements ms =>
      cases ms <;>
        (simp only [trySection, parsePlaySection] at h;
         repeat' split at h) <;>
        cases h <;>
        first
          | exact ⟨rfl, rfl, fun hh => hh⟩
          | exact ⟨rfl, rfl, fun _ => rfl⟩
    | _ =>
      (simp only [trySection, parsePlaySection] at h;
       repeat' split at h) <;>
      cases h <;>
      first
        | exact ⟨rfl, rfl, fun hh => hh⟩
        | exact ⟨rfl, rfl, fun _ => rfl⟩

theorem trySection_ne_crashPlayType (d : GameSection) (s : ParserState)
    (hd : needsPlayType d = true →
      s.game_builder.play_builder.play_type.isSome = true) :
    trySection d s ≠ StepRes.crashPlayType := by
  intro h
  cases d with
  | Context cs =>
    cases cs <;>
      (simp only [trySection, parseContextSection] at h;
       repeat' split at h) <;>
      exact StepRes.noConfusion h
  | HomeTeam ts =>
    cases ts <;>
      (simp only [trySection, parseTeamSection] at h;
       repeat' split at h) <;>
      exact StepRes.noConfusion h
  | AwayTeam ts =>
    cases ts <;>
      (simp only [trySection, parseTeamSection] at h;
       repeat' split at h) <;>
      exact StepRes.noConfusion h
  | Plays ps =>
    cases ps with
    | Fielders fs =>
      cases fs <;>
        (simp only [trySection, parsePlaySection] at h;
         repeat' split at h) <;>
        first
          | exact StepRes.noConfusion h
          | (rename_i hq; have hpt := hd rfl; rw [consumeInput_game_builder, updatePB_pb] at hq; simp only [] at hq; rw [hq] at hpt; simp at hpt)
    | Movements ms =>
      cases ms <;>
        (simp only [trySection, parsePlaySection] at h;
         repeat' split at h) <;>
        first
          | exact StepRes.noConfusion h
          | (rename_i hq; have hpt := hd rfl; rw [consumeInput_game_builder, updatePB_pb] at hq; simp only [] at hq; rw [hq] at hpt; simp at hpt)
    | _ =>
      (simp only [trySection, parsePlaySection] at h;
       repeat' split at h) <;>
      first
        | exact StepRes.noConfusion h
        | (rename_i hq; have hpt := hd rfl; rw [consumeInput_game_builder, updatePB_pb] at hq; simp only [] at hq; rw [hq] at hpt; simp at hpt)

theorem trySection_progress_SInv (d : GameSection) (s s' : ParserState)
    (hs : SInv s)
    (hd : needsPlayType d = true →
      s.game_builder.play_builder.play_type.isSome = true)
    (h : trySection d s = StepRes.progress s') : SInv s' := by
  cases d with
  | Context cs =>
    cases cs <;>
      (simp only [trySection, parseContextSection] at h;
       repeat' split at h) <;>
      first
        | exact StepRes.noConfusion h
        | (cases h; intro d' hmem hneed; first
            | exact hd rfl
            | rfl
            | exact hs d' hmem hneed
            | (simp only [consumeInput_game_builder, updatePB_pb, build_movement_play_type]; exact hd rfl)
            | (fin_cases hmem <;> exact absurd hneed (by decide)))
  | HomeTeam ts =>
    cases ts <;>
      (simp only [trySection, parseTeamSection] at h;
       repeat' split at h) <;>
      first
        | exact StepRes.noConfusion h
        | (cases h; intro d' hmem hneed; first
            | exact hd rfl
            | rfl
            | exact hs d' hmem hneed
            | (simp only [consumeInput_game_builder, updatePB_pb, build_movement_play_type]; exact hd rfl)
            | (fin_cases hmem <;> exact absurd hneed (by decide)))
  | AwayTeam ts =>
    cases ts <;>
      (simp only [trySection, parseTeamSection] at h;
       repeat' split at h) <;>
      first
        | exact StepRes.noConfusion h
        | (cases h; intro d' hmem hneed; first
            | exact hd rfl
            | rfl
            | exact hs d' hmem hneed
            | (simp only [consumeInput_game_builder, updatePB_pb, build_movement_play_type]; exact hd rfl)
            | (fin_cases hmem <;> exact absurd hneed (by decide)))
  | Plays ps =>
    cases ps with
    | Fielders fs =>
      cases fs <;>
        (simp only [trySection, parsePlaySection] at h;
         repeat' split at h) <;>
        first
          | exact StepRes.noConfusion h
          | (cases h; intro d' hmem hneed; first
              | exact hd rfl
              | rfl
              | exact hs d' hmem hneed
              | (simp only [consumeInput_game_builder, updatePB_pb, build_movement_play_type]; exact hd rfl)
              | (fin_cases hmem <;> exact absurd hneed (by decide)))
    | Movements ms =>
      cases ms <;>
        (simp only [trySection, parsePlaySection] at h;
         repeat' split at h) <;>
        first
          | exact StepRes.noConfusion h
          | (cases h; intro d' hmem hneed; first
              | exact hd rfl
              | rfl
              | exact hs d' hmem hneed
              | (simp only [consumeInput_game_builder, updatePB_pb, build_movement_play_type]; exact hd rfl)
              | (fin_cases hmem <;> exact absurd hneed (by decide)))
    | _ =>
      (simp only [trySection, parsePlaySection] at h;
       repeat' split at h) <;>
      first
        | exact StepRes.noConfusion h
        | (cases h; intro d' hmem hneed; first
            | exact hd rfl
            | rfl
            | exact hs d' hmem hneed
            | (simp only [consumeInput_game_builder, updatePB_pb, build_movement_play_type]; exact hd rfl)
            | (fin_cases hmem <;> exact absurd hneed (by decide)))

end Mlb

namespace Mlb

theorem stepSections_noProgress_inv (l : List GameSection) :
    ∀ s s' : ParserState, stepSections l s = StepRes.noProgress s' →
      s'.input_buffer = s.input_buffer ∧
      s'.possible_sections = s.possible_sections := by
  induction l with
  | nil =>
    intro s s' h
    simp only [stepSections] at h
    cases h
    exact ⟨rfl, rfl⟩
  | cons d rest ih =>
    intro s s' h
    simp only [stepSections] at h
    cases htry : trySection d s with
    | progress s1 => rw [htry] at h; cases h
    | noProgress s1 =>
      rw [htry] at h
      have h1 := trySection_noProgress_inv d s s1 htry
      have h2 := ih s1 s' h
      exact ⟨h2.1.trans h1.1, h2.2.trans h1.2.1⟩
    | semError m => rw [htry] at h; cases h
    | crashPlayType => rw [htry] at h; cases h
    | crashNoPlays => rw [htry] at h; cases h

theorem stepSections_inv (l : List GameSection) :
    ∀ s : ParserState, SInv s → (∀ d ∈ l, d ∈ s.possible_sections) →
      stepSections l s ≠ StepRes.crashPlayType ∧
      (∀ s', stepSections l s = StepRes.progress s' → SInv s') ∧
      (∀ s', stepSections l s = StepRes.noProgress s' → SInv s') := by
  induction l with
  | nil =>
    intro s hs _
    refine ⟨by simp [stepSections], ?_, ?_⟩
    · intro s' h
      simp only [stepSections] at h
      cases h
    · intro s' h
      simp only [stepSections] at h
      cases h
      exact hs
  | cons d rest ih =>
    intro s hs hmem
    have hd : needsPlayType d = true →
        s.game_builder.play_builder.play_type.isSome = true :=
      fun hn => hs d (hmem d (List.mem_cons_self _ _)) hn
    cases htry : trySection d s with
    | progress s1 =>
      have hstep : stepSections (d :: rest) s = StepRes.progress s1 := by
        simp [stepSections, htry]
      rw [hstep]
      refine ⟨by simp, ?_, ?_⟩
      · intro s' h
        cases h
        exact trySection_progress_SInv d s s1 hs hd htry
      · intro s' h
        cases h
    | noProgress s1 =>
      have h1 := trySection_noProgress_inv d s s1 htry
      have hs1 : SInv s1 := by
        intro d' hmem' hneed
        rw [h1.2.1] at hmem'
        exact h1.2.2 (hs d' hmem' hneed)
      have hmem1 : ∀ d' ∈ rest, d' ∈ s1.possible_sections := by
        intro d' hd'
        rw [h1.2.1]
        exact hmem d' (List.mem_cons_of_mem _ hd')
      have hstep : stepSections (d :: rest) s = stepSections rest s1 := by
        simp [stepSections, htry]
      rw [hstep]
      exact ih s1 hs1 hmem1
    | semError m =>
      have hstep : stepSections (d :: rest) s = StepRes.semError m := by
        simp [stepSections, htry]
      rw [hstep]
      refine ⟨by simp, fun s' h => ?_, fun s' h => ?_⟩ <;> cases h
    | crashPlayType => exact absurd htry (trySection_ne_crashPlayType d s hd)
    | crashNoPlays =>
      have hstep : stepSections (d :: rest) s = StepRes.crashNoPlays := by
        simp [stepSections, htry]
      rw [hstep]
      refine ⟨by simp, fun s' h => ?_, fun s' h => ?_⟩ <;> cases h

theorem parseInputBuffer_inv (s : ParserState) (hs : SInv s) :
    parseInputBuffer s ≠ StepRes.crashPlayType ∧
    (∀ s', parseInputBuffer s = StepRes.progress s' → SInv s') ∧
    (∀ s', parseInputBuffer s = StepRes.noProgress s' → SInv s') :=
  stepSections_inv s.possible_sections s hs (fun _ hd => hd)

theorem parseLoop_inv (fuel : Nat) :
    ∀ s : ParserState, SInv s →
      parseLoop fuel s ≠ ParseOutcome.crashPlayType ∧
      (∀ s', parseLoop fuel s = ParseOutcome.ok s' → SInv s') := by
  induction fuel with
  | zero =>
    intro s hs
    refine ⟨by simp [parseLoop], ?_⟩
    intro s' h
    simp only [parseLoop] at h
    cases h
    exact hs
  | succ n ih =>
    intro s hs
    simp only [parseLoop]
    split
    · exact ⟨by simp, fun s' h => by cases h; exact hs⟩
    · cases hpb : parseInputBuffer s with
      | progress s1 =>
        have hs1 := (parseInputBuffer_inv s hs).2.1 s1 hpb
        exact ih s1 hs1
      | noProgress s1 =>
        have hs1 := (parseInputBuffer_inv s hs).2.2 s1 hpb
        exact ⟨by simp, fun s' h => by cases h; exact hs1⟩
      | semError m =>
        exact ⟨by simp, fun s' h => by cases h⟩
      | crashPlayType => exact absurd hpb (parseInputBuffer_inv s hs).1
      | crashNoPlays =>
        exact ⟨by simp, fun s' h => by cases h⟩

theorem parse_input_inv (fuel : Nat) (s : ParserState) (chunk : List Char)
    (hs : SInv s) :
    parse_input fuel s chunk ≠ ParseOutcome.crashPlayType ∧
    (∀ s', parse_input fuel s chunk = ParseOutcome.ok s' → SInv s') :=
  parseLoop_inv fuel _ (fun d hd hn => hs d hd hn)

theorem feedChunks_inv (chunks : List (List Char)) :
    ∀ (fuel : Nat) (s : ParserState), SInv s →
      feedChunks fuel chunks s ≠ ParseOutcome.crashPlayType ∧
      (∀ s', feedChunks fuel chunks s = ParseOutcome.ok s' → SInv s') := by
  induction chunks with
  | nil =>
    intro fuel s hs
    refine ⟨by simp [feedChunks], ?_⟩
    intro s' h
    simp only [feedChunks] at h
    cases h
    exact hs
  | cons c cs ih =>
    intro fuel s hs
    simp only [feedChunks]
    cases hpi : parse_input fuel s c with
    | ok s1 =>
      have hs1 := (parse_input_inv fuel s c hs).2 s1 hpi
      exact ih fuel s1 hs1
    | semError m => exact ⟨by simp, fun s' h => by cases h⟩
    | crashPlayType => exact absurd hpi (parse_input_inv fuel s c hs).1
    | crashNoPlays => exact ⟨by simp, fun s' h => by cases h⟩

theorem SInv_new : SInv ParserState.new := by
  intro d hd hn
  simp only [ParserState.new, List.mem_singleton] at hd
  subst hd
  simp [needsPlayType] at hn

theorem claimSub_needs (d : GameSection)
    (h : claimSubSection d = true) : needsPlayType d = true := by
  cases d with
  | Context cs => simp [claimSubSection] at h
  | HomeTeam ts => simp [claimSubSection] at h
  | AwayTeam ts => simp [claimSubSection] at h
  | Plays ps =>
    cases ps with
    | Fielders fs =>
      cases fs <;> first | rfl | simp [claimSubSection] at h
    | Movements ms =>
      cases ms <;> first | rfl | simp [claimSubSection] at h
    | _ => first | rfl | simp [claimSubSection] at h

end Mlb

namespace Mlb

/-- Claim C7 (amended): a parsing step that makes no progress — including
every match-but-insufficient-lookahead attempt — leaves the input buffer
and the admissible section set exactly as they were; the builders'
contents, however, may already have been updated by field writes performed
before the lookahead check (see the counterexample). -/
theorem no_progress_step_preserves_buffer_and_sections
    (s s' : ParserState) (h : parseInputBuffer s = StepRes.noProgress s') :
    s'.input_buffer = s.input_buffer ∧
    s'.possible_sections = s.possible_sections :=
  stepSections_noProgress_inv s.possible_sections s s' h

/-- Witness for the amended C7 at a concrete no-progress step. -/
theorem no_progress_step_preserves_buffer_and_sections_witness :
    parseInputBuffer s7 = StepRes.noProgress s7' ∧
    s7'.input_buffer = s7.input_buffer ∧
    s7'.possible_sections = s7.possible_sections :=
  have h : parseInputBuffer s7 = StepRes.noProgress s7' := by rfl
  ⟨h, no_progress_step_preserves_buffer_and_sections s7 s7' h⟩

/-- Claim C10: whenever a play sub-section descriptor (Base, Batter,
Pitcher, Catcher, Fielders(Name) or Runner) is admissible, the play
builder's `play_type` is set; hence the `play_type.unwrap()` calls inside
`parse_play_section` never panic on any input (the `crashPlayType`
outcome, which models exactly those panics, is unreachable). -/
theorem subsection_admissible_implies_play_type_set
    (fuel : Nat) (chunks : List (List Char)) :
    feedChunks fuel chunks ParserState.new ≠ ParseOutcome.crashPlayType ∧
    (∀ st, feedChunks fuel chunks ParserState.new = ParseOutcome.ok st →
      ∀ d ∈ st.possible_sections, claimSubSection d = true →
        st.game_builder.play_builder.play_type.isSome = true) :=
  have h := feedChunks_inv chunks fuel ParserState.new SInv_new
  ⟨h.1, fun st hst d hd hsub => h.2 st hst d hd (claimSub_needs d hsub)⟩

/-- Witness for C10 on a concrete run that leaves `Batter` admissible. -/
theorem subsection_admissible_implies_play_type_set_witness :
    feedChunks 300 c10chunks ParserState.new = ParseOutcome.ok c10state ∧
    c10state.game_builder.play_builder.play_type.isSome = true :=
  have h : feedChunks 300 c10chunks ParserState.new =
      ParseOutcome.ok c10state := by rfl
  ⟨h, (subsection_admissible_implies_play_type_set 300 c10chunks).2
    c10state h (GameSection.Plays PlaySection.Batter) (by decide) (by rfl)⟩

end Mlb
